import Mathlib

/-!
Verification development for the NexaVest backend repository
(four single-file FastAPI services: `src/main.py`, `src/api/main.py`,
`src/api/index.py`, `src/src/main.py`).

Modelling conventions (shallow embedding):
* Python `str` is modelled as `List Char` (`PyStr`); the Python string
  operations used by the handlers (`strip`, `upper`, `lower`, `replace`,
  `split`, `in`, `endswith`, `isalpha`, `isalnum`) are given executable
  models below.
* Python `float` arithmetic is modelled by exact rational arithmetic `ℚ`;
  Python's `round(x, n)` (round-half-to-even) is `pyRound x n`.
* Outbound HTTP calls are modelled by oracle functions carried in an
  environment structure per service; every handler returns, next to its
  `Except`-style result, the list of outbound calls it performed, in order.
  A provider oracle returns the data the corresponding Python helper would
  have extracted from the provider's JSON; `Fetch α` distinguishes a raised
  network/parse exception (`crash`), a handled "no data" outcome (`miss`),
  and data (`got`).
* `float`-library transcendentals (`math.sqrt`, `np.log` in `src/main.py`)
  cannot be rational-valued; they are carried as environment functions
  (`sqrtf`, `logf`). The only property ever assumed about them is the IEEE
  fact that the square root of a nonnegative number is nonnegative, and it
  is always taken as an explicit hypothesis.
* Presentation-only response fields (free-text summaries, chart arrays)
  are omitted; every numeric field, label field and status code is kept.
-/

/-- Python `str` as a list of characters. -/
abbrev PyStr := List Char

/-- Coerce a Lean string literal to the `PyStr` model. -/
def pys (s : String) : PyStr := s.data

/-- Python `str.upper()`. -/
def pyUpper (s : PyStr) : PyStr := s.map Char.toUpper

/-- Python `str.lower()`. -/
def pyLower (s : PyStr) : PyStr := s.map Char.toLower

/-- Python `str.strip()` (remove leading and trailing whitespace). -/
def pyStrip (s : PyStr) : PyStr :=
  ((s.dropWhile Char.isWhitespace).reverse.dropWhile Char.isWhitespace).reverse

/-- Python `c in s` for a single character. -/
def pyContains (s : PyStr) (c : Char) : Bool := decide (c ∈ s)

/-- Python `str.isalpha()`: nonempty and all alphabetic. -/
def pyIsAlpha (s : PyStr) : Bool := !s.isEmpty && s.all Char.isAlpha

/-- Python `str.isalnum()`: nonempty and all alphanumeric. -/
def pyIsAlnum (s : PyStr) : Bool := !s.isEmpty && s.all Char.isAlphanum

/-- Python `str.replace(" ", "")`. -/
def removeSpaces (s : PyStr) : PyStr := s.filter (fun c => !(c == ' '))

/-- Python `str.split(sep)` for a one-character separator. -/
def splitOnChar (c : Char) : PyStr → List PyStr
  | [] => [[]]
  | x :: xs =>
    if x = c then [] :: splitOnChar c xs
    else
      match splitOnChar c xs with
      | [] => [[x]]
      | y :: ys => (x :: y) :: ys

/-- Python falsy-aware `a or b` on strings (empty string is falsy). -/
def pyOrS (a b : PyStr) : PyStr := if a = [] then b else a

/-- Python falsy-aware `a or b` where `a` may be `None` (result a string). -/
def pyOrO (a : Option PyStr) (b : PyStr) : PyStr :=
  match a with
  | some s => if s = [] then b else s
  | none => b

/-- Python falsy-aware `a or b` where both may be `None`. -/
def pyOrOO (a b : Option PyStr) : Option PyStr :=
  match a with
  | some s => if s = [] then b else some s
  | none => b

/-- Whether the needle is an initial segment of the haystack. -/
def takeEq : PyStr → PyStr → Bool
  | [], _ => true
  | _ :: _, [] => false
  | a :: as, b :: bs => a == b && takeEq as bs

/-- Python substring test `needle in haystack`. -/
def subIn (n : PyStr) : PyStr → Bool
  | [] => n == []
  | c :: t => takeEq n (c :: t) || subIn n t

/-- Python `str.strip(c)` for one character: remove it from both ends. -/
def stripChar (c : Char) (s : PyStr) : PyStr :=
  ((s.dropWhile (· == c)).reverse.dropWhile (· == c)).reverse

/-- Python negative-slice `xs[-n:]`: the last `n` elements. -/
def lastN (n : ℕ) (l : List ℚ) : List ℚ := l.drop (l.length - n)

/-- Kernel-computable floor of a rational (the field-structure `Int.floor`
of `ℚ` does not reduce definitionally, this one does). -/
def ratFloor (x : ℚ) : ℤ := x.num / (x.den : ℤ)

theorem ratFloor_eq (x : ℚ) : ratFloor x = Int.floor x := Rat.floor_def.symm

/-- Kernel-computable division of rationals (equal to `a / b`, including the
`b = 0` convention). -/
def qdiv (a b : ℚ) : ℚ := Rat.divInt (a.num * b.den) (a.den * b.num)

theorem qdiv_eq (a b : ℚ) : qdiv a b = a / b := by
  unfold qdiv
  rcases eq_or_ne b 0 with hb | hb
  · subst hb; simp [Rat.divInt_eq_div]
  · have hbn : (b.num : ℚ) ≠ 0 := by exact_mod_cast Rat.num_ne_zero.mpr hb
    have had : ((a.den : ℕ) : ℚ) ≠ 0 := Nat.cast_ne_zero.mpr a.den_nz
    have hbd : ((b.den : ℕ) : ℚ) ≠ 0 := Nat.cast_ne_zero.mpr b.den_nz
    have ha : (a.num : ℚ) = a * ((a.den : ℕ) : ℚ) :=
      (div_eq_iff had).mp (Rat.num_div_den a)
    have hb2 : (b.num : ℚ) = b * ((b.den : ℕ) : ℚ) :=
      (div_eq_iff hbd).mp (Rat.num_div_den b)
    rw [Rat.divInt_eq_div]
    push_cast
    rw [div_eq_div_iff (by exact mul_ne_zero had hbn) hb, ha, hb2]
    ring

/-- Kernel-computable addition of rationals. -/
def qadd (a b : ℚ) : ℚ := Rat.divInt (a.num * (b.den : ℤ) + b.num * (a.den : ℤ)) ((a.den : ℤ) * (b.den : ℤ))

/-- Kernel-computable subtraction of rationals. -/
def qsub (a b : ℚ) : ℚ := Rat.divInt (a.num * (b.den : ℤ) - b.num * (a.den : ℤ)) ((a.den : ℤ) * (b.den : ℤ))

/-- Kernel-computable multiplication of rationals. -/
def qmul (a b : ℚ) : ℚ := Rat.divInt (a.num * b.num) ((a.den : ℤ) * (b.den : ℤ))

/-- Kernel-computable absolute value of a rational. -/
def qabs (a : ℚ) : ℚ := Rat.divInt (a.num.natAbs : ℤ) (a.den : ℤ)

/-- Kernel-computable sum of a list of rationals. -/
def qsum : List ℚ → ℚ
  | [] => 0
  | x :: xs => qadd x (qsum xs)

theorem qadd_eq (a b : ℚ) : qadd a b = a + b := by
  unfold qadd
  have had : ((a.den : ℕ) : ℚ) ≠ 0 := Nat.cast_ne_zero.mpr a.den_nz
  have hbd : ((b.den : ℕ) : ℚ) ≠ 0 := Nat.cast_ne_zero.mpr b.den_nz
  have ha : (a.num : ℚ) = a * ((a.den : ℕ) : ℚ) := (div_eq_iff had).mp (Rat.num_div_den a)
  have hb2 : (b.num : ℚ) = b * ((b.den : ℕ) : ℚ) := (div_eq_iff hbd).mp (Rat.num_div_den b)
  rw [Rat.divInt_eq_div]
  push_cast
  rw [ha, hb2, div_eq_iff (mul_ne_zero had hbd)]
  ring

theorem qsub_eq (a b : ℚ) : qsub a b = a - b := by
  unfold qsub
  have had : ((a.den : ℕ) : ℚ) ≠ 0 := Nat.cast_ne_zero.mpr a.den_nz
  have hbd : ((b.den : ℕ) : ℚ) ≠ 0 := Nat.cast_ne_zero.mpr b.den_nz
  have ha : (a.num : ℚ) = a * ((a.den : ℕ) : ℚ) := (div_eq_iff had).mp (Rat.num_div_den a)
  have hb2 : (b.num : ℚ) = b * ((b.den : ℕ) : ℚ) := (div_eq_iff hbd).mp (Rat.num_div_den b)
  rw [Rat.divInt_eq_div]
  push_cast
  rw [ha, hb2, div_eq_iff (mul_ne_zero had hbd)]
  ring

theorem qmul_eq (a b : ℚ) : qmul a b = a * b := by
  unfold qmul
  have had : ((a.den : ℕ) : ℚ) ≠ 0 := Nat.cast_ne_zero.mpr a.den_nz
  have hbd : ((b.den : ℕ) : ℚ) ≠ 0 := Nat.cast_ne_zero.mpr b.den_nz
  have ha : (a.num : ℚ) = a * ((a.den : ℕ) : ℚ) := (div_eq_iff had).mp (Rat.num_div_den a)
  have hb2 : (b.num : ℚ) = b * ((b.den : ℕ) : ℚ) := (div_eq_iff hbd).mp (Rat.num_div_den b)
  rw [Rat.divInt_eq_div]
  push_cast
  rw [ha, hb2, div_eq_iff (mul_ne_zero had hbd)]
  ring

theorem qabs_eq (a : ℚ) : qabs a = |a| := by
  unfold qabs
  rcases le_or_lt 0 a with h | h
  · have hn : (0 : ℤ) ≤ a.num := Rat.num_nonneg.mpr h
    rw [abs_of_nonneg h, Int.natAbs_of_nonneg hn, Rat.divInt_eq_div]
    push_cast
    rw [Rat.num_div_den]
  · have hn : a.num < 0 := Rat.num_neg.mpr h
    rw [abs_of_neg h]
    have hcast : (a.num.natAbs : ℤ) = -a.num := Int.ofNat_natAbs_of_nonpos (le_of_lt hn)
    rw [hcast, Rat.divInt_eq_div]
    push_cast
    rw [neg_div, Rat.num_div_den]

theorem qsum_eq (l : List ℚ) : qsum l = l.sum := by
  induction l with
  | nil => rfl
  | cons x xs ih => rw [qsum, qadd_eq, ih, List.sum_cons]

/-- Parse a nonempty string of decimal digits as a rational number
(models Python `float` applied to such a string). -/
def parseNat (s : PyStr) : ℚ :=
  s.foldl (fun acc c => qadd (qmul acc 10) ((c.toNat - 48 : ℕ) : ℚ)) 0

/-- Successive differences, `np.diff`. -/
def diffs : List ℚ → List ℚ
  | a :: b :: t => qsub b a :: diffs (b :: t)
  | _ => []

/-- Round-half-to-even on rationals (the rounding of Python `round`). -/
def roundHalfEven (x : ℚ) : ℤ :=
  if qsub x ((ratFloor x : ℤ) : ℚ) < mkRat 1 2 then ratFloor x
  else if mkRat 1 2 < qsub x ((ratFloor x : ℤ) : ℚ) then ratFloor x + 1
  else if ratFloor x % 2 = 0 then ratFloor x else ratFloor x + 1

/-- Python `round(x, n)` on the rational model of floats. -/
def pyRound (x : ℚ) (n : ℕ) : ℚ :=
  qdiv ((roundHalfEven (qmul x ((Nat.pow 10 n : ℕ) : ℚ)) : ℤ) : ℚ) (((Nat.pow 10 n : ℕ) : ℚ))

theorem mkRat_half : mkRat 1 2 = (1 : ℚ)/2 := by norm_num [Rat.mkRat_eq_div]

theorem roundHalfEven_cases (x : ℚ) :
    roundHalfEven x = Int.floor x ∨ roundHalfEven x = Int.floor x + 1 := by
  unfold roundHalfEven
  rw [ratFloor_eq]
  split_ifs <;> simp

theorem abs_roundHalfEven_sub (x : ℚ) : |((roundHalfEven x : ℤ) : ℚ) - x| ≤ 1/2 := by
  have hfr0 : (0 : ℚ) ≤ x - (Int.floor x : ℚ) := by
    have := Int.floor_le x; linarith
  have hfr1 : x - (Int.floor x : ℚ) < 1 := by
    have := Int.lt_floor_add_one x; linarith
  unfold roundHalfEven
  simp only [ratFloor_eq, mkRat_half, qsub_eq]
  split_ifs with h1 h2 h3 <;> rw [abs_le] <;> constructor <;> push_cast <;> linarith

theorem roundHalfEven_nonneg {x : ℚ} (hx : 0 ≤ x) : 0 ≤ roundHalfEven x := by
  have hf : (0 : ℤ) ≤ Int.floor x := Int.floor_nonneg.mpr hx
  rcases roundHalfEven_cases x with h | h <;> omega

theorem natPowTen_cast (n : ℕ) : ((Nat.pow 10 n : ℕ) : ℚ) = (10 : ℚ) ^ n := by
  have h : (Nat.pow 10 n : ℕ) = 10 ^ n := rfl
  rw [h]
  push_cast
  ring

theorem pyRound_eq_div (x : ℚ) (n : ℕ) :
    pyRound x n = ((roundHalfEven (x * 10 ^ n) : ℤ) : ℚ) / 10 ^ n := by
  unfold pyRound
  rw [qdiv_eq, qmul_eq, natPowTen_cast]

theorem pyRound_nonneg {x : ℚ} (n : ℕ) (hx : 0 ≤ x) : 0 ≤ pyRound x n := by
  rw [pyRound_eq_div]
  have h : 0 ≤ roundHalfEven (x * 10 ^ n) :=
    roundHalfEven_nonneg (by positivity)
  have h10 : (0 : ℚ) < 10 ^ n := by positivity
  exact div_nonneg (by exact_mod_cast h) (le_of_lt h10)

theorem abs_pyRound_sub (x : ℚ) (n : ℕ) : |pyRound x n - x| ≤ 1 / (2 * 10 ^ n) := by
  rw [pyRound_eq_div]
  have h10 : (0 : ℚ) < 10 ^ n := by positivity
  have habs := abs_roundHalfEven_sub (x * 10 ^ n)
  have hrw : ((roundHalfEven (x * 10 ^ n) : ℤ) : ℚ) / 10 ^ n - x
      = (((roundHalfEven (x * 10 ^ n) : ℤ) : ℚ) - x * 10 ^ n) / 10 ^ n := by
    field_simp
    ring
  rw [hrw, abs_div, abs_of_pos h10, div_le_div_iff₀ h10 (by positivity)]
  calc |((roundHalfEven (x * 10 ^ n) : ℤ) : ℚ) - x * 10 ^ n| * (2 * 10 ^ n)
      ≤ (1/2) * (2 * 10 ^ n) := by
        apply mul_le_mul_of_nonneg_right habs (by positivity)
    _ = 1 * 10 ^ n := by ring

/-- Outcome of one outbound HTTP request: a raised exception (`crash`), a
handled empty/absent payload (`miss`), or extracted data (`got`). -/
inductive Fetch (α : Type) where
  | crash
  | miss
  | got (a : α)
deriving DecidableEq

/-- One outbound network call, as recorded in a handler's trace. -/
inductive Call where
  | cgSearch (q : PyStr)
  | cgPrice (q : PyStr)
  | cgSimple (q : PyStr)
  | exr (base quote : PyStr)
  | ySearch (q : PyStr)
  | yQuote (s : PyStr)
  | yHist (s : PyStr)
  | yf (s : PyStr)
  | finnhub (s : PyStr)
deriving DecidableEq

/-- Whether a recorded call is a Finnhub quote request. -/
def Call.isFinnhub : Call → Bool
  | .finnhub _ => true
  | _ => false

/-- Number of Finnhub calls in a trace. -/
def countFinnhub (t : List Call) : ℕ := (t.filter Call.isFinnhub).length

/-- An HTTP error response: status code and detail text. -/
structure HErr where
  status : ℕ
  detail : String
deriving DecidableEq

/-- Rank of a risk label in the order Low < Medium < High. -/
def riskRank : String → ℕ
  | "Low" => 0
  | "Medium" => 1
  | "High" => 2
  | _ => 3

namespace MainPy

/-- Raw Yahoo quote data for a symbol, as extracted by `get_yahoo_quote` in
`src/main.py`: `price` is the result of the
`regularMarketPrice or postMarketPrice or regularMarketPreviousClose` chain. -/
structure YQuoteRaw where
  price : Option ℚ
  currency : Option PyStr
  longName : Option PyStr
  exchange : Option PyStr
deriving DecidableEq

/-- Best CoinGecko search hit (fields of `coins[0]` used by the source). The
display name is assumed present in the provider payload. -/
structure CGCoin where
  id : PyStr
  symbol : PyStr
  name : PyStr
deriving DecidableEq

/-- Result of `coin_gecko_price` in `src/main.py`. -/
structure CGOut where
  id : PyStr
  symbol : PyStr
  name : PyStr
  price : ℚ
deriving DecidableEq

/-- Result of `forex_rate` in `src/main.py`. -/
structure FxOut where
  base : PyStr
  quote : PyStr
  rate : ℚ
deriving DecidableEq

/-- Outcome of `forex_rate`: `crash` models the uncaught `ValueError` raised
by `base, quote = p.split("/")` when the split does not have 2 parts; `nf`
models every handled failure (the function returns `None`). -/
inductive FxRes where
  | crash
  | nf
  | ok (f : FxOut)
deriving DecidableEq

/-- Provider oracles and float transcendentals for `src/main.py`. `exr` is
exchangerate.host (`None` for any handled failure), `cgSearchM`/`cgPriceM`
the two CoinGecko requests of `coin_gecko_price`, `ySearch` the Yahoo symbol
search (`search_yahoo_symbol` swallows all errors), `yQuote` the Yahoo quote
endpoint, `yHist` the yfinance daily-close history, `logf`/`sqrtf` the float
`np.log` and `math.sqrt`. -/
structure MEnv where
  exr : PyStr → PyStr → Option ℚ
  cgSearchM : PyStr → Option CGCoin
  cgPriceM : PyStr → Option ℚ
  ySearch : PyStr → Option PyStr
  yQuote : PyStr → Fetch YQuoteRaw
  yHist : PyStr → Fetch (List ℚ)
  logf : ℚ → ℚ
  sqrtf : ℚ → ℚ

/-- Days of history used for volatility and mean return (`HIST_DAYS`). -/
def HIST_DAYS : ℕ := 90

/-- Number of annual trading days used for annualization. -/
def ANNUAL_TRADING_DAYS : ℕ := 252

/-- Model of `forex_rate`'s pair normalization: uppercase, drop spaces, and
insert a slash into a six-letter pair. -/
def fxNormalize (pair : PyStr) : PyStr :=
  let p := removeSpaces (pyUpper pair)
  if !pyContains p '/' && decide (p.length = 6) then p.take 3 ++ '/' :: p.drop 3 else p

/-- Model of `forex_rate` in `src/main.py`. -/
def forex_rate (env : MEnv) (pair : PyStr) : FxRes × List Call :=
  let p := fxNormalize pair
  if pyContains p '/' = false then (.nf, [])
  else
    match splitOnChar '/' p with
    | [base, quote] =>
      match env.exr base quote with
      | some rate => (.ok ⟨base, quote, rate⟩, [.exr base quote])
      | none => (.nf, [.exr base quote])
    | _ => (.crash, [])

/-- Model of `coin_gecko_price` in `src/main.py`: search for the coin, then
fetch its USD spot price; every failure is swallowed into `none`. -/
def coin_gecko_price (env : MEnv) (q : PyStr) : Option CGOut × List Call :=
  match env.cgSearchM q with
  | none => (none, [.cgSearch q])
  | some coin =>
    match env.cgPriceM coin.id with
    | none => (none, [.cgSearch q, .cgPrice coin.id])
    | some p => (some ⟨coin.id, pyUpper coin.symbol, coin.name, p⟩, [.cgSearch q, .cgPrice coin.id])

/-- Result of `get_yahoo_quote` in `src/main.py` (price, defaulted currency,
and the raw-quote fields the handler reads). -/
structure YQuoteOut where
  price : Option ℚ
  currency : PyStr
  longName : Option PyStr
  exchange : Option PyStr
deriving DecidableEq

/-- Model of `get_yahoo_quote`: `miss` is the empty-result 404, `crash` the
network failure raised by `safe_get_json`. -/
def get_yahoo_quote (env : MEnv) (sym : PyStr) : Fetch YQuoteOut :=
  match env.yQuote sym with
  | .crash => .crash
  | .miss => .miss
  | .got q => .got ⟨q.price, pyOrO q.currency (pys "USD"), q.longName, q.exchange⟩

/-- Model of `fetch_yahoo_history`: history with fewer than 5 closes raises,
which the stock branch treats the same as a network failure; on success the
last `HIST_DAYS` closes are returned. -/
def fetch_yahoo_history (env : MEnv) (sym : PyStr) : Option (List ℚ) :=
  match env.yHist sym with
  | .got closes => if closes.length < 5 then none else some (lastN HIST_DAYS closes)
  | _ => none

/-- Model of `compute_vol_and_annual_return`: log returns, population std,
annualization by `sqrt(252)` and `* 252`, rounded to 6 decimals. -/
def compute_vol_and_annual_return (env : MEnv) (prices : List ℚ) : Option ℚ × Option ℚ :=
  if prices.length < 3 then (none, none)
  else
    let returns := diffs (prices.map env.logf)
    let mean_daily := qdiv (qsum returns) ((returns.length : ℕ) : ℚ)
    let var_daily := qdiv (qsum (returns.map (fun r => qmul (qsub r mean_daily) (qsub r mean_daily)))) ((returns.length : ℕ) : ℚ)
    let annual_vol := qmul (env.sqrtf var_daily) (env.sqrtf ((ANNUAL_TRADING_DAYS : ℕ) : ℚ))
    let annual_ret := qmul mean_daily ((ANNUAL_TRADING_DAYS : ℕ) : ℚ)
    (some (pyRound annual_vol 6), some (pyRound annual_ret 6))

/-- Model of `classify_risk_by_vol` in `src/main.py`. -/
def classify_risk_by_vol (annual_vol : Option ℚ) : String :=
  match annual_vol with
  | none => "Unknown"
  | some v => if v ≥ mkRat 1 2 then "High" else if v ≥ mkRat 1 5 then "Medium" else "Low"

/-- Model of `suggest_holding` in `src/main.py` (both arms of its trailing
fallback return the same text). -/
def suggest_holding (risk : String) (annual_return : Option ℚ) : String :=
  if risk = "High" then "Short (days to months)"
  else if risk = "Medium" then "6-12 months"
  else if risk = "Low" then "12+ months"
  else "6-12 months"

/-- Response of the `src/main.py` handler. `volatility`/`annual_return` are
the forex/crypto numeric fields, `volatility_annual` the stock one;
`expected_return_pct` holds the number formatted into the percent string of
the stock response. Free-text summary and conversion extras are omitted. -/
structure MResp where
  asset : PyStr
  symbol : Option PyStr
  rtype : String
  exchange : Option PyStr
  currency : PyStr
  current_price : ℚ
  volatility : Option ℚ
  volatility_annual : Option ℚ
  annual_return : Option ℚ
  expected_return_pct : Option ℚ
  risk : String
  holding_period : String
  estimated_value : ℚ
deriving DecidableEq

/-- Crypto-token keywords of `src/main.py`. -/
def crypto_tokens : List PyStr :=
  [pys "btc", pys "bitcoin", pys "eth", pys "ethereum", pys "bnb", pys "doge",
   pys "dogecoin", pys "sol", pys "solana", pys "ada", pys "matic", pys "ltc", pys "avax"]

/-- Forex branch of the `src/main.py` handler (lines 229-263). -/
def forexBranch (env : MEnv) (asset_input : PyStr) (amount : ℚ) :
    Except HErr MResp × List Call :=
  match forex_rate env asset_input with
  | (.crash, tr) => (.error ⟨500, "not enough values to unpack"⟩, tr)
  | (.nf, tr) => (.error ⟨404, "Forex pair not found"⟩, tr)
  | (.ok fx, tr) =>
    let annual_vol : ℚ := mkRat 12 100
    let annual_ret : ℚ := mkRat 2 100
    let risk := classify_risk_by_vol (some annual_vol)
    (.ok { asset := fx.base ++ '/' :: fx.quote,
           symbol := none, rtype := "forex", exchange := none,
           currency := fx.quote, current_price := fx.rate,
           volatility := some annual_vol, volatility_annual := none,
           annual_return := some annual_ret, expected_return_pct := none,
           risk := risk, holding_period := suggest_holding risk (some annual_ret),
           estimated_value := pyRound (qmul amount (qadd 1 annual_ret)) 2 }, tr)

/-- Successful crypto response of `src/main.py` (lines 272-293). -/
def cryptoOk (cg : CGOut) (amount : ℚ) : Except HErr MResp :=
  let annual_vol : ℚ := mkRat 9 10
  let annual_ret : ℚ := mkRat 25 100
  let risk := classify_risk_by_vol (some annual_vol)
  .ok { asset := cg.name, symbol := some cg.symbol, rtype := "crypto", exchange := none,
        currency := pys "USD", current_price := cg.price,
        volatility := some annual_vol, volatility_annual := none,
        annual_return := some annual_ret, expected_return_pct := none,
        risk := risk, holding_period := suggest_holding risk (some annual_ret),
        estimated_value := pyRound (qmul amount (qadd 1 annual_ret)) 2 }

/-- Crypto branch of the `src/main.py` handler (lines 265-301): the CoinGecko
lookup is retried on the lowercased input before failing with 404. -/
def cryptoBranch (env : MEnv) (asset_input lower : PyStr) (amount : ℚ) :
    Except HErr MResp × List Call :=
  match coin_gecko_price env asset_input with
  | (some cg, t1) => (cryptoOk cg amount, t1)
  | (none, t1) =>
    match coin_gecko_price env lower with
    | (some cg, t2) => (cryptoOk cg amount, t1 ++ t2)
    | (none, t2) => (.error ⟨404, "Crypto not found"⟩, t1 ++ t2)

/-- Direct-quote attempt of the stock branch (lines 309-315): only taken when
the uppercased input looks like a ticker, and every exception is swallowed. -/
def stockDirect (env : MEnv) (cand : PyStr) : Option PyStr × List Call :=
  if pyContains cand '.' || (pyIsAlnum cand && decide (cand.length ≤ 6)) then
    match get_yahoo_quote env cand with
    | .got _ => (some cand, [.yQuote cand])
    | _ => (none, [.yQuote cand])
  else (none, [])

/-- The volatility/return estimation step of the `src/main.py` stock branch
(lines 326-337): compute from the fetched history, or fall back to the
default estimates 0.25/0.05 when the history fetch fails. -/
def stockVolRet (env : MEnv) (sym : PyStr) : Option ℚ × Option ℚ :=
  match fetch_yahoo_history env sym with
  | some prices => compute_vol_and_annual_return env prices
  | none => (some (mkRat 25 100), some (mkRat 5 100))

/-- Stock branch of the `src/main.py` handler (lines 303-371). The summary
f-string applies `round` to the annualized volatility, so a `None` volatility
would raise and surface as a 500; that arm is kept. -/
def stockBranch (env : MEnv) (a : PyStr) (amount : ℚ) : Except HErr MResp × List Call :=
  let cand := pyUpper a
  match stockDirect env cand with
  | (dir, tr0) =>
    let fr : Option PyStr × List Call :=
      match dir with
      | some s => (some s, tr0)
      | none => (env.ySearch a, tr0 ++ [.ySearch a])
    match fr with
    | (none, tr1) => (.error ⟨404, "Stock/company not found"⟩, tr1)
    | (some sym, tr1) =>
      let tr2 := tr1 ++ [.yQuote sym]
      match get_yahoo_quote env sym with
      | .crash => (.error ⟨500, "Failed to fetch quote"⟩, tr2)
      | .miss => (.error ⟨404, "No quote for symbol"⟩, tr2)
      | .got q =>
        match q.price with
        | none => (.error ⟨500, "float argument must not be None"⟩, tr2)
        | some price =>
          let currency := pyOrS q.currency (pys "USD")
          let tr3 := tr2 ++ [.yHist sym]
          let avr := stockVolRet env sym
          match avr.1 with
          | none => (.error ⟨500, "round of NoneType"⟩, tr3)
          | some av =>
            let risk := classify_risk_by_vol (some av)
            (.ok { asset := pyOrO q.longName sym, symbol := some sym, rtype := "stock",
                   exchange := some (q.exchange.getD (pys "Unknown")),
                   currency := currency, current_price := price,
                   volatility := none, volatility_annual := some av,
                   annual_return := avr.2,
                   expected_return_pct := avr.2.map (fun r => pyRound (qmul r 100) 2),
                   risk := risk, holding_period := suggest_holding risk avr.2,
                   estimated_value := pyRound (qmul amount (qadd 1 (avr.2.getD (mkRat 5 100)))) 2 }, tr3)

/-- Model of the `POST /analyze` handler of `src/main.py` (conversion of the
optional `amount_currency` is not modelled, i.e. requests with
`amount_currency = None`). -/
def analyze (env : MEnv) (asset : PyStr) (amount : ℚ) : Except HErr MResp × List Call :=
  let asset_input := pyStrip asset
  if asset_input = [] ∨ amount ≤ 0 then
    (.error ⟨400, "Provide valid asset and positive amount"⟩, [])
  else
    let lower := pyLower asset_input
    let is_forex := pyContains asset_input '/' ||
      (decide ((removeSpaces asset_input).length = 6) && pyIsAlpha (asset_input.take 3) &&
        pyIsAlpha (asset_input.drop 3))
    let is_crypto := crypto_tokens.any (fun tok => subIn tok lower)
    if is_forex then forexBranch env asset_input amount
    else if is_crypto then cryptoBranch env asset_input lower amount
    else stockBranch env asset_input amount

end MainPy

namespace ApiMain

/-- One CoinGecko search hit, fields used by `detect_asset_type_and_symbol`. -/
structure Coin where
  id : PyStr
  symbol : Option PyStr
  name : Option PyStr
deriving DecidableEq

/-- One Yahoo search result item, fields used by the detector. -/
structure YItem where
  symbol : Option PyStr
  idf : Option PyStr
  quoteType : Option PyStr
  shortname : Option PyStr
  longname : Option PyStr
  namef : Option PyStr
  exchange : Option PyStr
  exchDisp : Option PyStr
deriving DecidableEq

/-- Price snapshot produced by `fetch_price_with_yfinance` /
`fetch_price_with_finnhub` (the chart array is presentation-only and
omitted). -/
structure PriceData where
  current : ℚ
  prev_close : ℚ
  high : ℚ
  low : ℚ
deriving DecidableEq

/-- CoinGecko simple-price payload for one coin id. -/
structure CGPrices where
  usd : Option ℚ
  inr : Option ℚ
deriving DecidableEq

/-- Provider oracles for `src/api/main.py`. `cgSearch`/`ySearch` swallow all
errors into `[]` in the source, `yfin`/`finnhub` into `None`;
`tickerCurrency` is the yfinance `info["currency"]` lookup used by
`map_currency_from_symbol_or_exchange`. -/
structure AEnv where
  cgSearch : PyStr → List Coin
  cgPriceA : PyStr → Option CGPrices
  ySearch : PyStr → List YItem
  yfin : PyStr → Option PriceData
  finnhubKey : PyStr
  finnhub : PyStr → Option PriceData
  tickerCurrency : PyStr → Option PyStr

/-- Whether `s` ends with `t` (Python `str.endswith`). -/
def endsWithL (s t : PyStr) : Bool := takeEq t.reverse s.reverse

/-- The exchange-suffix currency table, in source (insertion) order. -/
def EXCHANGE_CURRENCY_MAP : List (PyStr × PyStr) :=
  [(pys ".NS", pys "INR"), (pys ".BO", pys "INR"), (pys ".KS", pys "KRW"),
   (pys ".KR", pys "KRW"), (pys ".T", pys "JPY"), (pys ".L", pys "GBP"),
   (pys ".AX", pys "AUD"), (pys ".HK", pys "HKD"), (pys ".SZ", pys "CNY"),
   (pys ".SS", pys "CNY")]

/-- Classified asset, the dict returned by `detect_asset_type_and_symbol`
(`none` at the call site models `{"type": "unknown"}`). -/
structure Detected where
  dtype : String
  symbol : PyStr
  name : Option PyStr
  exchange : Option PyStr
  source : String
deriving DecidableEq

/-- Python truthiness filter on an optional string: `""` and `None` both
become `none`. -/
def truthy (a : Option PyStr) : Option PyStr :=
  match a with
  | some s => if s = [] then none else some s
  | none => none

/-- The crypto step of the detector: prefer an exact (case-insensitive)
symbol match among the CoinGecko hits, else take the first hit. -/
def detectCoins (q : PyStr) (coins : List Coin) : Option Detected :=
  match coins with
  | [] => none
  | first :: _ =>
    let qU := pyUpper q
    match coins.find? (fun c =>
        match c.symbol with
        | some s => decide (pyUpper s = qU)
        | none => false) with
    | some c => some ⟨"crypto", c.id, c.name, none, "coingecko"⟩
    | none => some ⟨"crypto", first.id, first.name, none, "coingecko"⟩

/-- The known-exchange-suffix step of the detector. -/
def suffixHit (u : PyStr) (q : PyStr) : Option Detected :=
  if EXCHANGE_CURRENCY_MAP.any (fun p => endsWithL u p.1) then
    some ⟨"stock", u, some q, none, "user"⟩
  else none

/-- Quote types preferred by the Yahoo-search step. -/
def yPreferred : List PyStr :=
  [pys "equity", pys "et", pys "etf", pys "index", pys "mutualfund", pys "fund"]

/-- Python `item.get("symbol") or item.get("id")` with the loop's
truthiness test. -/
def symOf (item : YItem) : Option PyStr := truthy (pyOrOO item.symbol item.idf)

/-- The best-item loop of the Yahoo-search step: break at the first item of
a preferred quote type, else keep the first item that has a symbol. -/
def pickBest : List YItem → Option YItem → Option YItem
  | [], best => best
  | item :: rest, best =>
    match symOf item with
    | none => pickBest rest best
    | some _ =>
      let qt := pyLower (item.quoteType.getD [])
      if yPreferred.any (fun p => p == qt) then some item
      else pickBest rest (match best with | none => some item | some b => some b)

/-- The Yahoo-search step of the detector. -/
def pickYahoo (q : PyStr) (results : List YItem) : Option Detected :=
  match results with
  | [] => none
  | _ :: _ =>
    match pickBest results none with
    | none => none
    | some best =>
      let symbol := (pyOrOO best.symbol best.idf).getD []
      let name := pyOrO (pyOrOO best.shortname (pyOrOO best.longname best.namef)) q
      let exchange := truthy (pyOrOO best.exchange best.exchDisp)
      let qt := pyLower (best.quoteType.getD [])
      let atype := if subIn (pys "etf") qt then "etf"
                   else if subIn (pys "index") qt then "index"
                   else if subIn (pys "fund") qt || subIn (pys "mutualfund") qt then "fund"
                   else "stock"
      some ⟨atype, symbol, some name, exchange, "yahoo"⟩

/-- The last-resort step of the detector: a short space-free string is taken
as a ticker. -/
def fallbackDetect (q : PyStr) : Option Detected :=
  if !pyContains q ' ' && decide (q.length ≤ 10) then
    some ⟨"stock", pyUpper q, some q, none, "user"⟩
  else none

/-- Model of `detect_asset_type_and_symbol` in `src/api/main.py`. -/
def detect_asset_type_and_symbol (env : AEnv) (q0 : PyStr) : Option Detected × List Call :=
  let q := pyStrip q0
  if q = [] then (none, [])
  else
    match detectCoins q (env.cgSearch q) with
    | some d => (some d, [.cgSearch q])
    | none =>
      match suffixHit (pyUpper q) q with
      | some d => (some d, [.cgSearch q])
      | none =>
        match pickYahoo q (env.ySearch q) with
        | some d => (some d, [.cgSearch q, .ySearch q])
        | none => (fallbackDetect q, [.cgSearch q, .ySearch q])

/-- Model of `classify_risk` in `src/api/main.py`: risk label and holding
period from intraday volatility. -/
def classify_risk (volatility : ℚ) : String × String :=
  if volatility < mkRat 2 100 then ("Low", "12+ months")
  else if volatility < mkRat 5 100 then ("Medium", "3-12 months")
  else ("High", "0-3 months")

/-- Exchange-name step of `map_currency_from_symbol_or_exchange`. -/
def exchCurrency (exchange : Option PyStr) : Option PyStr :=
  match exchange with
  | none => none
  | some e =>
    if e = [] then none
    else
      let ex := pyUpper e
      if subIn (pys "NSE") ex || subIn (pys "BSE") ex then some (pys "INR")
      else if subIn (pys "NASDAQ") ex || subIn (pys "NASDAQNM") ex || subIn (pys "NYSE") ex then
        some (pys "USD")
      else if subIn (pys "KRX") ex || subIn (pys "KOREA") ex then some (pys "KRW")
      else if subIn (pys "TOKYO") ex || subIn (pys "TSE") ex then some (pys "JPY")
      else if subIn (pys "LONDON") ex || subIn (pys "LSE") ex then some (pys "GBP")
      else none

/-- Symbol-suffix step of `map_currency_from_symbol_or_exchange`. -/
def suffixCurrency (sym : PyStr) : Option PyStr :=
  (EXCHANGE_CURRENCY_MAP.find? (fun p => endsWithL sym p.1)).map (fun p => p.2)

/-- Model of `map_currency_from_symbol_or_exchange` in `src/api/main.py`. -/
def map_currency_from_symbol_or_exchange (env : AEnv) (symbol : PyStr)
    (exchange : Option PyStr) : PyStr :=
  match suffixCurrency (pyUpper symbol) with
  | some cc => cc
  | none =>
    match exchCurrency exchange with
    | some cc => cc
    | none =>
      match env.tickerCurrency symbol with
      | some c => pyUpper c
      | none => pys "USD"

/-- Model of `fetch_price_with_yfinance` (the provider oracle hands back the
snapshot the pandas extraction would produce, or `None` on any failure). -/
def fetch_price_with_yfinance (env : AEnv) (symbol : PyStr) :
    Option PriceData × List Call :=
  (env.yfin symbol, [.yf symbol])

/-- Model of `fetch_price_with_finnhub`: with an empty API key the source
returns `None` without making a request. -/
def fetch_price_with_finnhub (env : AEnv) (symbol : PyStr) :
    Option PriceData × List Call :=
  if env.finnhubKey = [] then (none, [])
  else (env.finnhub symbol, [.finnhub symbol])

/-- The stock-price fallback cascade of the handler (lines 316-334):
yfinance, then Finnhub, then one retry with the `.NS` suffix appended; on
the retry the symbol and exchange are updated. -/
def stockFetch (env : AEnv) (symbol : PyStr) (exchange : Option PyStr) :
    Option (PyStr × PriceData × Option PyStr) × List Call :=
  match fetch_price_with_yfinance env symbol with
  | (some pd, t1) => (some (symbol, pd, exchange), t1)
  | (none, t1) =>
    match fetch_price_with_finnhub env symbol with
    | (some pd, t2) => (some (symbol, pd, exchange), t1 ++ t2)
    | (none, t2) =>
      if !pyContains symbol '.' && decide (symbol.length ≤ 8) then
        match fetch_price_with_yfinance env (symbol ++ pys ".NS") with
        | (some pd, t3) =>
          (some (symbol ++ pys ".NS", pd, some (pyOrO exchange (pys "NSE"))), t1 ++ t2 ++ t3)
        | (none, t3) => (none, t1 ++ t2 ++ t3)
      else (none, t1 ++ t2)

/-- The stock metrics of the handler (lines 342-361): intraday volatility,
one-day expected return, risk bucket, estimated value and gain/loss. -/
structure Metrics where
  volatility : ℚ
  expected_return : ℚ
  risk_category : String
  holding_period : String
  estimated_value : ℚ
  gain_loss : ℚ
deriving DecidableEq

/-- Model of lines 342-361 of `src/api/main.py`: `volatility =
round(abs(high - low) / current, 3)` guarded by `current != 0`,
`expected_return = round((current - prev_close) / prev_close, 3)` guarded by
`prev_close != 0`, `estimated_value = round(amount * (1 + expected_return),
2)` and `gain_loss = round(estimated_value - amount, 2)`. -/
def stockMetrics (amount : ℚ) (pd : PriceData) : Metrics :=
  let volatility := if pd.current ≠ 0 then pyRound (qdiv (qabs (qsub pd.high pd.low)) pd.current) 3 else 0
  let expected_return :=
    if pd.prev_close ≠ 0 then pyRound (qdiv (qsub pd.current pd.prev_close) pd.prev_close) 3 else 0
  let rc := classify_risk volatility
  let estimated_value := pyRound (qmul amount (qadd 1 expected_return)) 2
  ⟨volatility, expected_return, rc.1, rc.2, estimated_value,
    pyRound (qsub estimated_value amount) 2⟩

/-- Response of the `src/api/main.py` handler (recommendation text and chart
omitted; crypto leaves `estimated_value`/`gain_loss` as `None`). -/
structure AResp where
  query : PyStr
  asset_type : String
  symbol : PyStr
  name : PyStr
  market : PyStr
  currency : PyStr
  current_price_usd : Option ℚ
  current_price_inr : Option ℚ
  current_price : Option ℚ
  prev_close : Option ℚ
  volatility : ℚ
  expected_return : ℚ
  risk_category : String
  holding_period : String
  estimated_value : Option ℚ
  gain_loss : Option ℚ
deriving DecidableEq

/-- Crypto branch of the `src/api/main.py` handler (lines 268-308): fixed
volatility 0.07, expected return 0.0, risk High, and a `None` estimated
value and gain/loss. -/
def cryptoBranch (env : AEnv) (q : PyStr) (d : Detected) : Except HErr AResp × List Call :=
  let coin_id := d.symbol
  let coin_name := pyOrO d.name coin_id
  match env.cgPriceA coin_id with
  | none => (.error ⟨502, "Unable to fetch crypto price from CoinGecko"⟩, [.cgPrice coin_id])
  | some prices =>
    let usd_price := prices.usd.getD 0
    (.ok { query := q, asset_type := "crypto", symbol := coin_id, name := coin_name,
           market := pys "CoinGecko", currency := pys "USD",
           current_price_usd := some (pyRound usd_price 2),
           current_price_inr :=
             match prices.inr with
             | some p => if p = 0 then none else some (pyRound p 2)
             | none => none,
           current_price := none, prev_close := none,
           volatility := mkRat 7 100, expected_return := 0,
           risk_category := "High", holding_period := "Short (crypto is highly volatile)",
           estimated_value := none, gain_loss := none }, [.cgPrice coin_id])

/-- Model of the `POST /api/analyze` handler of `src/api/main.py`. Note the
source validates only that the query is nonempty; the amount is never
checked. -/
def analyze (env : AEnv) (query : PyStr) (amount : ℚ) : Except HErr AResp × List Call :=
  let q := pyStrip query
  if q = [] then (.error ⟨400, "Please provide a company name, ticker, or crypto"⟩, [])
  else
    match detect_asset_type_and_symbol env q with
    | (none, tr) => (.error ⟨404, "Could not detect asset from query"⟩, tr)
    | (some d, tr) =>
      if d.dtype = "crypto" then
        match cryptoBranch env q d with
        | (r, tc) => (r, tr ++ tc)
      else
        match stockFetch env d.symbol d.exchange with
        | (none, tf) =>
          (.error ⟨502, "Unable to fetch market data for symbol " ++ String.mk d.symbol⟩,
            tr ++ tf)
        | (some (symbol, pd, exchange), tf) =>
          let m := stockMetrics amount pd
          let currency := map_currency_from_symbol_or_exchange env symbol exchange
          (.ok { query := q,
                 asset_type := if d.dtype = "stock" ∨ d.dtype = "etf" ∨ d.dtype = "index" ∨
                     d.dtype = "fund" then "stock" else d.dtype,
                 symbol := symbol,
                 name := pyOrO d.name d.symbol, market := pyOrO exchange (pys "Unknown"),
                 currency := currency,
                 current_price_usd := none, current_price_inr := none,
                 current_price := some (pyRound pd.current 4),
                 prev_close := some (pyRound pd.prev_close 4),
                 volatility := m.volatility, expected_return := m.expected_return,
                 risk_category := m.risk_category, holding_period := m.holding_period,
                 estimated_value := some m.estimated_value, gain_loss := some m.gain_loss },
            tr ++ tf)

end ApiMain

namespace ApiIndex

/-- Fields of the Yahoo quote dict read by `get_stock_price` in
`src/api/index.py` (`regularMarketPrice` may be absent). -/
structure StockQuote where
  price : Option ℚ
  currency : Option PyStr
deriving DecidableEq

/-- Provider oracles for `src/api/index.py`. This handler has no
try/except, so a raised provider exception (`crash`) surfaces as the
framework's generic 500 response. -/
structure IEnv where
  exr : PyStr → PyStr → Fetch ℚ
  cgSimple : PyStr → Fetch (Option ℚ)
  ySearch : PyStr → Fetch PyStr
  yQuote : PyStr → Fetch StockQuote

/-- Crypto keywords of `src/api/index.py` (exact match on the lowercased
input). -/
def crypto_names : List PyStr :=
  [pys "bitcoin", pys "btc", pys "eth", pys "ethereum", pys "solana",
   pys "dogecoin", pys "bnb"]

/-- The pure pair-parsing step of `get_forex_rate`: uppercase and split on
the slash; any part count other than 2 raises a `ValueError` (modelled as
`none`, surfaced as a 500). -/
def pairParse (pair : PyStr) : Option (PyStr × PyStr) :=
  match splitOnChar '/' (pyUpper pair) with
  | [base, quote] => some (base, quote)
  | _ => none

/-- Model of `get_forex_rate` in `src/api/index.py`. -/
def get_forex_rate (env : IEnv) (pair : PyStr) : Except HErr (ℚ × PyStr) × List Call :=
  match pairParse pair with
  | none => (.error ⟨500, "Internal Server Error"⟩, [])
  | some (base, quote) =>
    match env.exr base quote with
    | .crash => (.error ⟨500, "Internal Server Error"⟩, [.exr base quote])
    | .miss => (.error ⟨404, "Invalid forex pair"⟩, [.exr base quote])
    | .got rate => (.ok (rate, quote), [.exr base quote])

/-- Model of `get_crypto_price`: `got none` is a payload that contains the
coin but no `usd` entry, whose `KeyError` surfaces as a 500. -/
def get_crypto_price (env : IEnv) (symbol : PyStr) : Except HErr (ℚ × PyStr) × List Call :=
  let s := pyLower symbol
  match env.cgSimple s with
  | .crash => (.error ⟨500, "Internal Server Error"⟩, [.cgSimple s])
  | .miss => (.error ⟨404, "Crypto not found"⟩, [.cgSimple s])
  | .got none => (.error ⟨500, "Internal Server Error"⟩, [.cgSimple s])
  | .got (some p) => (.ok (p, pys "USD"), [.cgSimple s])

/-- Model of `search_symbol_by_name` in `src/api/index.py`. -/
def search_symbol_by_name (env : IEnv) (name : PyStr) : Except HErr PyStr × List Call :=
  match env.ySearch name with
  | .crash => (.error ⟨500, "Internal Server Error"⟩, [.ySearch name])
  | .miss => (.error ⟨404, "Company not found"⟩, [.ySearch name])
  | .got sym => (.ok sym, [.ySearch name])

/-- Model of `get_stock_price` in `src/api/index.py`. -/
def get_stock_price (env : IEnv) (symbol : PyStr) :
    Except HErr (Option ℚ × PyStr) × List Call :=
  match env.yQuote symbol with
  | .crash => (.error ⟨500, "Internal Server Error"⟩, [.yQuote symbol])
  | .miss => (.error ⟨404, "Stock not found"⟩, [.yQuote symbol])
  | .got q => (.ok (q.price, q.currency.getD (pys "USD")), [.yQuote symbol])

/-- Per-class fixed metrics of `src/api/index.py` (risk label, expected
return as the literal percent string of the source, holding period). -/
def metricsFor (atype : String) : String × PyStr × String :=
  if atype = "crypto" then ("High", pys "8%", "Short-term")
  else if atype = "forex" then ("Medium", pys "2%", "6-12 months")
  else ("Low", pys "5%", "12+ months")

/-- Response of the `src/api/index.py` handler. `expected_return` is the
percent string exactly as the source builds it. -/
structure IResp where
  asset : PyStr
  rtype : String
  currency : PyStr
  current_price : Option ℚ
  expected_return : PyStr
  risk : String
  holding_period : String
  estimated_value : ℚ
deriving DecidableEq

/-- Model of the `POST /analyze` handler of `src/api/index.py`. The
estimated value is computed from the percent string by
`float(ret.strip(chr(37)))/100` as in the source. -/
def analyze (env : IEnv) (asset0 : PyStr) (amount : ℚ) : Except HErr IResp × List Call :=
  let asset := pyStrip asset0
  if asset = [] ∨ amount ≤ 0 then (.error ⟨400, "Provide valid asset and amount"⟩, [])
  else
    let fetched : Except HErr ((Option ℚ × PyStr) × String) × List Call :=
      if pyContains asset '/' then
        match get_forex_rate env asset with
        | (.ok (p, cur), t) => (.ok ((some p, cur), "forex"), t)
        | (.error e, t) => (.error e, t)
      else if crypto_names.any (fun n => n == pyLower asset) then
        match get_crypto_price env asset with
        | (.ok (p, cur), t) => (.ok ((some p, cur), "crypto"), t)
        | (.error e, t) => (.error e, t)
      else
        match search_symbol_by_name env asset with
        | (.error e, t) => (.error e, t)
        | (.ok sym, t) =>
          match get_stock_price env sym with
          | (.ok (p, cur), t2) => (.ok ((p, cur), "stock"), t ++ t2)
          | (.error e, t2) => (.error e, t ++ t2)
    match fetched with
    | (.error e, t) => (.error e, t)
    | (.ok ((p, currency), atype), t) =>
      let m := metricsFor atype
      (.ok { asset := pyUpper asset, rtype := atype, currency := currency,
             current_price := p,
             expected_return := m.2.1, risk := m.1, holding_period := m.2.2,
             estimated_value :=
               pyRound (qmul amount (qadd 1 (qdiv (parseNat (stripChar '%' m.2.1)) 100))) 2 }, t)

end ApiIndex

namespace SrcSrc

/-- Fields of `yf.Ticker(name).info` read by `src/src/main.py`. -/
structure SInfo where
  currentPrice : Option ℚ
  regularMarketPrice : Option ℚ
  quoteType : Option PyStr
  currency : Option PyStr
deriving DecidableEq

/-- Provider oracles for `src/src/main.py`: the CoinGecko simple-price call
(keyed by the two lowercased pair parts) and the yfinance info dict. -/
structure SEnv where
  cgPair : PyStr → PyStr → Fetch (Option ℚ)
  info : PyStr → Fetch SInfo

/-- Python falsy-aware `a or b` on optional floats (0.0 is falsy). -/
def orQ (a b : Option ℚ) : Option ℚ :=
  match a with
  | some x => if x = 0 then b else some x
  | none => b

/-- Response of the `src/src/main.py` handler (the crypto branch returns no
currency and no estimated value). -/
structure SResp where
  asset : PyStr
  rtype : PyStr
  price : ℚ
  currency : Option PyStr
  investment : ℚ
  est_value : Option ℚ
deriving DecidableEq

/-- Model of the `POST /analyze` handler of `src/src/main.py`. The whole
body sits in `try: ... except Exception as e: raise HTTPException(500,
str(e))`, and FastAPI's `HTTPException` derives from `Exception`, so the 400
and 404 raised inside the `try` are caught and re-raised as 500 with
`str(e)` (which formats as "status: detail") — no 400 or 404 can escape. -/
def analyze (env : SEnv) (asset : PyStr) (amount : ℚ) : Except HErr SResp × List Call :=
  let name := pyUpper asset
  if name = [] then (.error ⟨500, "400: Asset name required"⟩, [])
  else if pyContains name '-' || pyContains name '/' then
    let pair := name.map (fun c => if c = '/' then '-' else c)
    let parts := splitOnChar '-' pair
    let p0 := pyLower (parts.getD 0 [])
    let p1 := pyLower (parts.getD 1 [])
    match env.cgPair p0 p1 with
    | .crash => (.error ⟨500, "upstream error"⟩, [.cgSimple p0])
    | .miss => (.error ⟨500, "404: Crypto pair not found"⟩, [.cgSimple p0])
    | .got none => (.error ⟨500, "KeyError"⟩, [.cgSimple p0])
    | .got (some price) =>
      (.ok { asset := name, rtype := pys "crypto", price := price, currency := none,
             investment := amount, est_value := none }, [.cgSimple p0])
  else
    match env.info name with
    | .crash => (.error ⟨500, "upstream error"⟩, [.yQuote name])
    | .miss => (.error ⟨500, "upstream error"⟩, [.yQuote name])
    | .got info =>
      match orQ info.currentPrice info.regularMarketPrice with
      | none => (.error ⟨500, "404: Asset not found"⟩, [.yQuote name])
      | some p =>
        if p = 0 then (.error ⟨500, "404: Asset not found"⟩, [.yQuote name])
        else
          (.ok { asset := name, rtype := info.quoteType.getD (pys "stock"),
                 price := p, currency := some (info.currency.getD (pys "USD")),
                 investment := amount,
                 est_value := some (pyRound (qmul (qdiv amount p) p) 2) }, [.yQuote name])

end SrcSrc

section ConcreteEnvironments

/-- Concrete `src/main.py` environment: Yahoo serves an AAPL quote, history
fails (so the handler falls back to the default 0.25/0.05 estimates), other
providers are silent. -/
def mEnvStock : MainPy.MEnv where
  exr := fun _ _ => none
  cgSearchM := fun _ => none
  cgPriceM := fun _ => none
  ySearch := fun _ => some (pys "AAPL")
  yQuote := fun _ => .got ⟨some 150, some (pys "USD"), some (pys "Apple Inc."), some (pys "NMS")⟩
  yHist := fun _ => .crash
  logf := fun x => x
  sqrtf := fun x => x

/-- Concrete `src/main.py` environment serving a USD/INR rate. -/
def mEnvFx : MainPy.MEnv where
  exr := fun b q => if b = pys "USD" ∧ q = pys "INR" then some 83 else none
  cgSearchM := fun _ => none
  cgPriceM := fun _ => none
  ySearch := fun _ => none
  yQuote := fun _ => .miss
  yHist := fun _ => .miss
  logf := fun x => x
  sqrtf := fun x => x

/-- Concrete `src/main.py` environment serving a CoinGecko bitcoin price. -/
def mEnvCg : MainPy.MEnv where
  exr := fun _ _ => none
  cgSearchM := fun _ => some ⟨pys "bitcoin", pys "btc", pys "Bitcoin"⟩
  cgPriceM := fun _ => some 50000
  ySearch := fun _ => none
  yQuote := fun _ => .miss
  yHist := fun _ => .miss
  logf := fun x => x
  sqrtf := fun x => x

/-- Concrete `src/api/main.py` environment: the searches are empty so the
detector falls through to the bare-ticker rule, and yfinance serves an AAPL
snapshot (current 150, prev close 149, high 152, low 148). -/
def aEnvStock : ApiMain.AEnv where
  cgSearch := fun _ => []
  cgPriceA := fun _ => none
  ySearch := fun _ => []
  yfin := fun s => if s = pys "AAPL" then some ⟨150, 149, 152, 148⟩ else none
  finnhubKey := []
  finnhub := fun _ => none
  tickerCurrency := fun _ => none

/-- Concrete `src/api/main.py` environment whose yfinance snapshot carries a
negative current price (closes are raw provider floats; nothing in the
source constrains their sign). -/
def aEnvNeg : ApiMain.AEnv where
  cgSearch := fun _ => []
  cgPriceA := fun _ => none
  ySearch := fun _ => []
  yfin := fun s => if s = pys "XYZ" then some ⟨-1, 1, 1, 0⟩ else none
  finnhubKey := []
  finnhub := fun _ => none
  tickerCurrency := fun _ => none

/-- Concrete `src/api/main.py` environment where every stock-price provider
fails and a Finnhub key is configured. -/
def aEnvFail : ApiMain.AEnv where
  cgSearch := fun _ => []
  cgPriceA := fun _ => none
  ySearch := fun _ => []
  yfin := fun _ => none
  finnhubKey := pys "k"
  finnhub := fun _ => none
  tickerCurrency := fun _ => none

/-- Concrete `src/api/main.py` environment where CoinGecko recognises
"bitcoin" and serves prices. -/
def aEnvCrypto : ApiMain.AEnv where
  cgSearch := fun _ => [⟨pys "bitcoin", some (pys "btc"), some (pys "Bitcoin")⟩]
  cgPriceA := fun _ => some ⟨some 50000, some 4150000⟩
  ySearch := fun _ => []
  yfin := fun _ => none
  finnhubKey := []
  finnhub := fun _ => none
  tickerCurrency := fun _ => none

/-- Concrete `src/api/index.py` environment serving a USD/INR rate. -/
def iEnvFx : ApiIndex.IEnv where
  exr := fun b q => if b = pys "USD" ∧ q = pys "INR" then .got 83 else .miss
  cgSimple := fun _ => .miss
  ySearch := fun _ => .miss
  yQuote := fun _ => .miss

/-- Concrete `src/api/index.py` environment serving a btc price. -/
def iEnvCrypto : ApiIndex.IEnv where
  exr := fun _ _ => .miss
  cgSimple := fun s => if s = pys "btc" then .got (some 50000) else .miss
  ySearch := fun _ => .miss
  yQuote := fun _ => .miss

/-- Concrete `src/api/index.py` environment serving an AAPL quote. -/
def iEnvStock : ApiIndex.IEnv where
  exr := fun _ _ => .miss
  cgSimple := fun _ => .miss
  ySearch := fun _ => .got (pys "AAPL")
  yQuote := fun _ => .got ⟨some 150, some (pys "USD")⟩

/-- Concrete `src/src/main.py` environment serving a yfinance info price. -/
def sEnvStock : SrcSrc.SEnv where
  cgPair := fun _ _ => .miss
  info := fun _ => .got ⟨some 123, none, some (pys "EQUITY"), some (pys "USD")⟩

end ConcreteEnvironments

deriving instance DecidableEq for Except

section StringLemmas

theorem dropWhile_eq_self_of {p : Char → Bool} (l : PyStr) (h : ∀ c ∈ l, p c = false) :
    l.dropWhile p = l := by
  cases l with
  | nil => rfl
  | cons c t => rw [List.dropWhile_cons, h c (List.mem_cons_self c t)]; simp

theorem pyStrip_eq_self {l : PyStr} (h : ∀ c ∈ l, c.isWhitespace = false) : pyStrip l = l := by
  unfold pyStrip
  rw [dropWhile_eq_self_of l h,
    dropWhile_eq_self_of l.reverse (fun c hc => h c (List.mem_reverse.mp hc)),
    List.reverse_reverse]

theorem removeSpaces_eq_self {l : PyStr} (h : ∀ c ∈ l, (c == ' ') = false) :
    removeSpaces l = l := by
  unfold removeSpaces
  apply List.filter_eq_self.mpr
  intro a ha
  rw [h a ha]
  rfl

theorem pyContains_true {l : PyStr} {c : Char} (h : c ∈ l) : pyContains l c = true := by
  simp [pyContains, h]

theorem pyContains_not_mem {l : PyStr} {c : Char} (h : pyContains l c = false) : c ∉ l := by
  simpa [pyContains] using h

theorem splitOnChar_not_mem {c : Char} : ∀ {l : PyStr}, c ∉ l → splitOnChar c l = [l]
  | [], _ => rfl
  | x :: xs, h => by
    have hx : ¬ x = c := fun e => h (e ▸ List.mem_cons_self x xs)
    have ht : c ∉ xs := fun hm => h (List.mem_cons_of_mem x hm)
    rw [splitOnChar, if_neg hx, splitOnChar_not_mem ht]

theorem splitOnChar_sandwich {c : Char} :
    ∀ (b q : PyStr), c ∉ b → c ∉ q → splitOnChar c (b ++ c :: q) = [b, q]
  | [], q, _, hq => by
    rw [List.nil_append, splitOnChar, if_pos rfl, splitOnChar_not_mem hq]
  | x :: b, q, hb, hq => by
    have hx : ¬ x = c := fun e => hb (e ▸ List.mem_cons_self x b)
    have hbt : c ∉ b := fun hm => hb (List.mem_cons_of_mem x hm)
    rw [List.cons_append, splitOnChar, if_neg hx, splitOnChar_sandwich b q hbt hq]

end StringLemmas

/-- C5: the intraday classifier (`classify_risk`, `src/api/main.py`) maps
volatility v to Low iff v < 0.02, Medium iff 0.02 ≤ v < 0.05, High iff
v ≥ 0.05; the annualized classifier (`classify_risk_by_vol`, `src/main.py`)
uses 0.2 and 0.5: Low iff v < 0.2, Medium iff 0.2 ≤ v < 0.5, High iff
v ≥ 0.5. -/
theorem C5_risk_thresholds (v : ℚ) :
    ((ApiMain.classify_risk v).1 = "Low" ↔ v < 2/100) ∧
    ((ApiMain.classify_risk v).1 = "Medium" ↔ 2/100 ≤ v ∧ v < 5/100) ∧
    ((ApiMain.classify_risk v).1 = "High" ↔ 5/100 ≤ v) ∧
    (MainPy.classify_risk_by_vol (some v) = "Low" ↔ v < 2/10) ∧
    (MainPy.classify_risk_by_vol (some v) = "Medium" ↔ 2/10 ≤ v ∧ v < 5/10) ∧
    (MainPy.classify_risk_by_vol (some v) = "High" ↔ 5/10 ≤ v) := by
  have e2 : (mkRat 2 100 : ℚ) = 2/100 := by rw [Rat.mkRat_eq_div]; norm_num
  have e5 : (mkRat 5 100 : ℚ) = 5/100 := by rw [Rat.mkRat_eq_div]; norm_num
  have e15 : (mkRat 1 5 : ℚ) = 2/10 := by rw [Rat.mkRat_eq_div]; norm_num
  have e12 : (mkRat 1 2 : ℚ) = 5/10 := by rw [Rat.mkRat_eq_div]; norm_num
  have hA : (ApiMain.classify_risk v).1 =
      if v < 2/100 then "Low" else if v < 5/100 then "Medium" else "High" := by
    unfold ApiMain.classify_risk
    rw [e2, e5]
    split_ifs <;> rfl
  have hB : MainPy.classify_risk_by_vol (some v) =
      if 5/10 ≤ v then "High" else if 2/10 ≤ v then "Medium" else "Low" := by
    unfold MainPy.classify_risk_by_vol
    rw [e15, e12]
  rw [hA, hB]
  clear hA hB e2 e5 e15 e12
  refine ⟨?_, ?_, ?_, ?_, ?_, ?_⟩ <;> split_ifs with h1 h2 <;> simp_all
  all_goals first | linarith | (constructor <;> linarith) | (intro h; linarith)

/-- C4: in the stock metrics of `src/api/main.py` (lines 342-350), when the
current price and previous close are nonzero, the volatility equals
`round(|high - low| / current, 3)` and the expected return equals
`round((current - prev_close) / prev_close, 3)`. -/
theorem C4_stock_formulas (amount : ℚ) (pd : ApiMain.PriceData)
    (hc : pd.current ≠ 0) (hp : pd.prev_close ≠ 0) :
    (ApiMain.stockMetrics amount pd).volatility = pyRound (|pd.high - pd.low| / pd.current) 3 ∧
    (ApiMain.stockMetrics amount pd).expected_return =
      pyRound ((pd.current - pd.prev_close) / pd.prev_close) 3 := by
  unfold ApiMain.stockMetrics
  dsimp only
  rw [if_pos hc, if_pos hp, qdiv_eq, qabs_eq, qsub_eq, qdiv_eq, qsub_eq]
  exact ⟨rfl, rfl⟩

/-- Witness for C4 at the spec's own example snapshot (current 150, high
152, low 148, previous close 149): volatility 0.027, expected return
0.007. -/
theorem C4_stock_formulas_witness :
    ((150 : ℚ) ≠ 0 ∧ (149 : ℚ) ≠ 0) ∧
    ((ApiMain.stockMetrics 1000 ⟨150, 149, 152, 148⟩).volatility =
        pyRound (|(152 : ℚ) - 148| / 150) 3 ∧
      (ApiMain.stockMetrics 1000 ⟨150, 149, 152, 148⟩).expected_return =
        pyRound (((150 : ℚ) - 149) / 149) 3) :=
  ⟨⟨by norm_num, by norm_num⟩,
    C4_stock_formulas 1000 ⟨150, 149, 152, 148⟩ (by norm_num) (by norm_num)⟩

/-- C9: in `src/src/main.py` every error result of the analyze handler has
status 500: the 400 (empty asset) and 404 (not found) HTTPExceptions raised
inside the `try` are caught by `except Exception` and re-raised as 500. -/
theorem C9_always_500 (env : SrcSrc.SEnv) (asset : PyStr) (amount : ℚ) (e : HErr)
    (h : (SrcSrc.analyze env asset amount).1 = .error e) : e.status = 500 := by
  simp only [SrcSrc.analyze] at h
  repeat' split at h
  all_goals simp at h
  all_goals subst h
  all_goals rfl

/-- Witness for C9: the empty asset name yields a 500 carrying the text of
the swallowed 400, never a 400 itself. -/
theorem C9_always_500_witness :
    (SrcSrc.analyze sEnvStock (pys "") 5).1 = .error ⟨500, "400: Asset name required"⟩ ∧
    (⟨500, "400: Asset name required"⟩ : HErr).status = 500 :=
  ⟨by decide, C9_always_500 sEnvStock (pys "") 5 _ (by decide)⟩

/-- C10: in the stock/forex branch of `src/src/main.py` the estimated value
`round(amount / price * price, 2)` is exactly `round(amount, 2)` for the
(necessarily nonzero) fetched price: it does not depend on the price and
carries no expected return. -/
theorem C10_est_value (env : SrcSrc.SEnv) (asset : PyStr) (amount : ℚ)
    (resp : SrcSrc.SResp) (e : ℚ)
    (h : (SrcSrc.analyze env asset amount).1 = .ok resp)
    (he : resp.est_value = some e) : e = pyRound amount 2 := by
  simp only [SrcSrc.analyze] at h
  repeat' split at h
  all_goals simp at h
  all_goals subst h
  all_goals simp at he
  all_goals subst he
  all_goals rw [qmul_eq, qdiv_eq, div_mul_cancel₀ amount (by assumption)]

/-- Witness for C10: with a fetched price of 123 and amount 1000 the
handler's estimated value equals `round(1000, 2)`, independent of the
price. -/
theorem C10_est_value_witness :
    (SrcSrc.analyze sEnvStock (pys "AAPL") 1000).1 =
      .ok { asset := pys "AAPL", rtype := pys "EQUITY", price := 123,
            currency := some (pys "USD"), investment := 1000,
            est_value := some (pyRound (qmul (qdiv 1000 123) 123) 2) } ∧
    pyRound (qmul (qdiv 1000 123) 123) 2 = pyRound 1000 2 :=
  ⟨by decide,
    C10_est_value sEnvStock (pys "AAPL") 1000
      { asset := pys "AAPL", rtype := pys "EQUITY", price := 123,
        currency := some (pys "USD"), investment := 1000,
        est_value := some (pyRound (qmul (qdiv 1000 123) 123) 2) }
      (pyRound (qmul (qdiv 1000 123) 123) 2) (by decide) rfl⟩

section ResponseLiterals

/-- Response of `src/api/main.py` for query "AAPL", amount 1000 under
`aEnvStock`. -/
def aaplResp : ApiMain.AResp :=
  { query := pys "AAPL", asset_type := "stock", symbol := pys "AAPL", name := pys "AAPL",
    market := pys "Unknown", currency := pys "USD",
    current_price_usd := none, current_price_inr := none,
    current_price := some 150, prev_close := some 149,
    volatility := mkRat 27 1000, expected_return := mkRat 7 1000,
    risk_category := "Medium", holding_period := "3-12 months",
    estimated_value := some 1007, gain_loss := some 7 }

/-- Response of `src/api/main.py` for query "AAPL", amount 0 under
`aEnvStock` (the unvalidated amount flows through). -/
def aapl0Resp : ApiMain.AResp :=
  { query := pys "AAPL", asset_type := "stock", symbol := pys "AAPL", name := pys "AAPL",
    market := pys "Unknown", currency := pys "USD",
    current_price_usd := none, current_price_inr := none,
    current_price := some 150, prev_close := some 149,
    volatility := mkRat 27 1000, expected_return := mkRat 7 1000,
    risk_category := "Medium", holding_period := "3-12 months",
    estimated_value := some 0, gain_loss := some 0 }

/-- Crypto response of `src/api/main.py` for query "bitcoin" under
`aEnvCrypto`. -/
def btcAResp : ApiMain.AResp :=
  { query := pys "bitcoin", asset_type := "crypto", symbol := pys "bitcoin",
    name := pys "Bitcoin", market := pys "CoinGecko", currency := pys "USD",
    current_price_usd := some 50000, current_price_inr := some 4150000,
    current_price := none, prev_close := none,
    volatility := mkRat 7 100, expected_return := 0,
    risk_category := "High", holding_period := "Short (crypto is highly volatile)",
    estimated_value := none, gain_loss := none }

/-- Forex response of `src/main.py` for asset "USD/INR", amount 100 under
`mEnvFx`. -/
def fxMResp : MainPy.MResp :=
  { asset := pys "USD/INR", symbol := none, rtype := "forex", exchange := none,
    currency := pys "INR", current_price := 83,
    volatility := some (mkRat 12 100), volatility_annual := none,
    annual_return := some (mkRat 2 100), expected_return_pct := none,
    risk := "Low", holding_period := "12+ months", estimated_value := 102 }

/-- Stock response of `src/main.py` for asset "AAPL", amount 1000 under
`mEnvStock` (history fails, so the 0.25/0.05 fallback estimates appear). -/
def stockMResp : MainPy.MResp :=
  { asset := pys "Apple Inc.", symbol := some (pys "AAPL"), rtype := "stock",
    exchange := some (pys "NMS"), currency := pys "USD", current_price := 150,
    volatility := none, volatility_annual := some (mkRat 25 100),
    annual_return := some (mkRat 5 100), expected_return_pct := some 5,
    risk := "Medium", holding_period := "6-12 months", estimated_value := 1050 }

/-- Crypto response of `src/api/index.py` for asset "BTC", amount 500 under
`iEnvCrypto`. -/
def btcIResp : ApiIndex.IResp :=
  { asset := pys "BTC", rtype := "crypto", currency := pys "USD",
    current_price := some 50000, expected_return := pys "8%", risk := "High",
    holding_period := "Short-term", estimated_value := 540 }

/-- Forex response of `src/api/index.py` for asset "USD/INR", amount 100
under `iEnvFx`. -/
def fxIResp : ApiIndex.IResp :=
  { asset := pys "USD/INR", rtype := "forex", currency := pys "INR",
    current_price := some 83, expected_return := pys "2%", risk := "Medium",
    holding_period := "6-12 months", estimated_value := 102 }

end ResponseLiterals

section BranchLemmas

theorem MainPy.forexBranch_fields (env : MainPy.MEnv) (x : PyStr) (amt : ℚ)
    (resp : MainPy.MResp) (h : (MainPy.forexBranch env x amt).1 = .ok resp) :
    resp.rtype = "forex" ∧ resp.volatility = some (mkRat 12 100) ∧
    resp.volatility_annual = none ∧
    resp.annual_return = some (mkRat 2 100) ∧
    resp.estimated_value = pyRound (qmul amt (qadd 1 (mkRat 2 100))) 2 := by
  simp only [MainPy.forexBranch] at h
  repeat' split at h
  all_goals simp at h
  subst h
  exact ⟨rfl, rfl, rfl, rfl, rfl⟩

theorem MainPy.cryptoBranch_fields (env : MainPy.MEnv) (x y : PyStr) (amt : ℚ)
    (resp : MainPy.MResp) (h : (MainPy.cryptoBranch env x y amt).1 = .ok resp) :
    resp.rtype = "crypto" ∧ resp.volatility = some (mkRat 9 10) ∧
    resp.volatility_annual = none ∧
    resp.annual_return = some (mkRat 25 100) ∧
    resp.estimated_value = pyRound (qmul amt (qadd 1 (mkRat 25 100))) 2 := by
  simp only [MainPy.cryptoBranch, MainPy.cryptoOk] at h
  repeat' split at h
  all_goals simp at h
  all_goals subst h
  all_goals exact ⟨rfl, rfl, rfl, rfl, rfl⟩

theorem MainPy.stockVolRet_cases (env : MainPy.MEnv) (sym : PyStr) :
    MainPy.stockVolRet env sym = (some (mkRat 25 100), some (mkRat 5 100)) ∨
    ∃ prices, MainPy.stockVolRet env sym = MainPy.compute_vol_and_annual_return env prices := by
  unfold MainPy.stockVolRet
  split
  · exact Or.inr ⟨_, rfl⟩
  · exact Or.inl rfl

theorem MainPy.stockBranch_fields (env : MainPy.MEnv) (a : PyStr) (amt : ℚ)
    (resp : MainPy.MResp) (h : (MainPy.stockBranch env a amt).1 = .ok resp) :
    resp.rtype = "stock" ∧ resp.volatility = none ∧
    resp.estimated_value =
      pyRound (qmul amt (qadd 1 (resp.annual_return.getD (mkRat 5 100)))) 2 ∧
    ((resp.volatility_annual = some (mkRat 25 100) ∧
        resp.annual_return = some (mkRat 5 100)) ∨
      (∃ prices, resp.volatility_annual =
          (MainPy.compute_vol_and_annual_return env prices).1 ∧
        resp.annual_return = (MainPy.compute_vol_and_annual_return env prices).2)) := by
  simp only [MainPy.stockBranch] at h
  repeat' split at h
  all_goals simp at h
  all_goals subst h
  refine ⟨rfl, rfl, rfl, ?_⟩
  rename_i heq
  rcases MainPy.stockVolRet_cases env _ with hv | ⟨prices, hv⟩ <;> rw [hv] at heq ⊢
  · simp at heq
    subst heq
    exact Or.inl ⟨rfl, rfl⟩
  · exact Or.inr ⟨prices, heq.symm, rfl⟩

theorem MainPy.analyze_ok_cases (env : MainPy.MEnv) (a : PyStr) (amt : ℚ)
    (resp : MainPy.MResp) (h : (MainPy.analyze env a amt).1 = .ok resp) :
    (∃ x, (MainPy.forexBranch env x amt).1 = .ok resp) ∨
    (∃ x y, (MainPy.cryptoBranch env x y amt).1 = .ok resp) ∨
    (∃ x, (MainPy.stockBranch env x amt).1 = .ok resp) := by
  simp only [MainPy.analyze] at h
  split at h
  · simp at h
  · split at h
    · exact Or.inl ⟨_, h⟩
    · split at h
      · exact Or.inr (Or.inl ⟨_, _, h⟩)
      · exact Or.inr (Or.inr ⟨_, h⟩)

end BranchLemmas

theorem ApiMain.cryptoBranchA_fields (env : ApiMain.AEnv) (q : PyStr) (d : ApiMain.Detected)
    (resp : ApiMain.AResp) (h : (ApiMain.cryptoBranch env q d).1 = .ok resp) :
    resp.asset_type = "crypto" ∧ resp.volatility = mkRat 7 100 ∧
    resp.expected_return = 0 ∧ resp.risk_category = "High" ∧
    resp.estimated_value = none ∧ resp.gain_loss = none := by
  simp only [ApiMain.cryptoBranch] at h
  repeat' split at h
  all_goals simp at h
  all_goals subst h
  all_goals exact ⟨rfl, rfl, rfl, rfl, rfl, rfl⟩

theorem ApiMain.stockMetrics_est (amount : ℚ) (pd : ApiMain.PriceData) :
    (ApiMain.stockMetrics amount pd).estimated_value =
      pyRound (amount * (1 + (ApiMain.stockMetrics amount pd).expected_return)) 2 := by
  unfold ApiMain.stockMetrics
  dsimp only
  rw [qmul_eq, qadd_eq]

theorem ApiMain.stockMetrics_vol_nonneg (amount : ℚ) (pd : ApiMain.PriceData)
    (hc : 0 < pd.current) : 0 ≤ (ApiMain.stockMetrics amount pd).volatility := by
  unfold ApiMain.stockMetrics
  dsimp only
  rw [if_pos (ne_of_gt hc)]
  apply pyRound_nonneg
  rw [qdiv_eq, qabs_eq, qsub_eq]
  exact div_nonneg (abs_nonneg _) (le_of_lt hc)

theorem ApiMain.analyzeA_ok_cases (env : ApiMain.AEnv) (q : PyStr) (amt : ℚ)
    (resp : ApiMain.AResp) (h : (ApiMain.analyze env q amt).1 = .ok resp) :
    (∃ d, (ApiMain.cryptoBranch env (pyStrip q) d).1 = .ok resp) ∨
    (∃ pd, resp.asset_type ≠ "crypto" ∧
      resp.volatility = (ApiMain.stockMetrics amt pd).volatility ∧
      resp.expected_return = (ApiMain.stockMetrics amt pd).expected_return ∧
      resp.risk_category = (ApiMain.stockMetrics amt pd).risk_category ∧
      resp.estimated_value = some (ApiMain.stockMetrics amt pd).estimated_value ∧
      resp.gain_loss = some (ApiMain.stockMetrics amt pd).gain_loss) := by
  simp only [ApiMain.analyze] at h
  split at h
  · simp at h
  · split at h
    · simp at h
    · split at h
      · exact Or.inl ⟨_, by simpa using h⟩
      · split at h
        · simp at h
        · simp at h
          subst h
          refine Or.inr ⟨_, ?_, rfl, rfl, rfl, rfl, rfl⟩
          split
          · simp
          · assumption

theorem ApiIndex.analyze_ok_fields (env : ApiIndex.IEnv) (a : PyStr) (amt : ℚ)
    (resp : ApiIndex.IResp) (h : (ApiIndex.analyze env a amt).1 = .ok resp) :
    resp.expected_return = (ApiIndex.metricsFor resp.rtype).2.1 ∧
    resp.risk = (ApiIndex.metricsFor resp.rtype).1 ∧
    resp.holding_period = (ApiIndex.metricsFor resp.rtype).2.2 ∧
    resp.estimated_value =
      pyRound (qmul amt (qadd 1 (qdiv (parseNat (stripChar '%' resp.expected_return)) 100))) 2 := by
  simp only [ApiIndex.analyze] at h
  repeat' split at h
  all_goals simp at h
  all_goals subst h
  all_goals exact ⟨rfl, rfl, rfl, rfl⟩

theorem MainPy.compute_vol_nonneg (env : MainPy.MEnv)
    (hsq : ∀ x, 0 ≤ x → 0 ≤ env.sqrtf x) (prices : List ℚ) (v : ℚ)
    (h : (MainPy.compute_vol_and_annual_return env prices).1 = some v) : 0 ≤ v := by
  unfold MainPy.compute_vol_and_annual_return at h
  split at h
  · simp at h
  · simp at h
    rw [← h]
    apply pyRound_nonneg
    rw [qmul_eq]
    apply mul_nonneg
    · apply hsq
      rw [qdiv_eq]
      apply div_nonneg
      · rw [qsum_eq]
        apply List.sum_nonneg
        intro x hx
        obtain ⟨r, hr, rfl⟩ := List.mem_map.mp hx
        rw [qmul_eq, qsub_eq]
        exact mul_self_nonneg _
      · positivity
    · apply hsq
      exact Nat.cast_nonneg _

theorem pyRound2_tol (x : ℚ) : |pyRound x 2 - x| ≤ 1/200 := by
  have h := abs_pyRound_sub x 2
  norm_num at h
  exact h

/-- C1 counterexample: in the crypto branch of `src/api/main.py` a
successful analysis (query "bitcoin", amount 500) returns
`expected_return = 0.0` but `estimated_value = None`, so the response's
estimated value does not equal `amount * (1 + expected_return)` (= 500). -/
theorem C1_counterexample :
    Except.map ApiMain.AResp.estimated_value (ApiMain.analyze aEnvCrypto (pys "bitcoin") 500).1 =
      .ok none ∧
    Except.map ApiMain.AResp.expected_return (ApiMain.analyze aEnvCrypto (pys "bitcoin") 500).1 =
      .ok 0 ∧
    (none : Option ℚ) ≠ some (500 * (1 + 0)) :=
  ⟨by decide, by decide, by simp⟩

/-- C1 amended: whenever a successful response carries a numeric estimated
value and a numeric return figure, the estimated value equals
`round(amount * (1 + return), 2)`, hence is within 1/200 of
`amount * (1 + return)`; the crypto branch of `src/api/main.py` instead
returns a `None` estimated value. Covers all four relations: the
`src/api/main.py` stock path, its crypto path, `src/main.py` (return figure
`annual_return`), and `src/api/index.py` (return figure the percent
string). -/
theorem C1_amended :
    (∀ (env : ApiMain.AEnv) (q : PyStr) (amt : ℚ) (resp : ApiMain.AResp) (e : ℚ),
        (ApiMain.analyze env q amt).1 = .ok resp → resp.estimated_value = some e →
        e = pyRound (amt * (1 + resp.expected_return)) 2 ∧
        |e - amt * (1 + resp.expected_return)| ≤ 1/200) ∧
    (∀ (env : ApiMain.AEnv) (q : PyStr) (amt : ℚ) (resp : ApiMain.AResp),
        (ApiMain.analyze env q amt).1 = .ok resp → resp.asset_type = "crypto" →
        resp.estimated_value = none) ∧
    (∀ (env : MainPy.MEnv) (a : PyStr) (amt : ℚ) (resp : MainPy.MResp) (r : ℚ),
        (MainPy.analyze env a amt).1 = .ok resp → resp.annual_return = some r →
        resp.estimated_value = pyRound (amt * (1 + r)) 2 ∧
        |resp.estimated_value - amt * (1 + r)| ≤ 1/200) ∧
    (∀ (env : ApiIndex.IEnv) (a : PyStr) (amt : ℚ) (resp : ApiIndex.IResp),
        (ApiIndex.analyze env a amt).1 = .ok resp →
        resp.estimated_value =
          pyRound (amt * (1 + parseNat (stripChar '%' resp.expected_return) / 100)) 2 ∧
        |resp.estimated_value -
          amt * (1 + parseNat (stripChar '%' resp.expected_return) / 100)| ≤ 1/200) := by
  refine ⟨?_, ?_, ?_, ?_⟩
  · intro env q amt resp e h he
    rcases ApiMain.analyzeA_ok_cases env q amt resp h with ⟨d, hc⟩ | ⟨pd, _, _, her, _, hest, _⟩
    · rcases ApiMain.cryptoBranchA_fields env (pyStrip q) d resp hc with ⟨_, _, _, _, hen, _⟩
      rw [hen] at he
      exact absurd he (by simp)
    · rw [hest] at he
      have he2 : e = (ApiMain.stockMetrics amt pd).estimated_value :=
        (Option.some_inj.mp he).symm
      rw [he2, her, ApiMain.stockMetrics_est]
      exact ⟨rfl, pyRound2_tol _⟩
  · intro env q amt resp h hcr
    rcases ApiMain.analyzeA_ok_cases env q amt resp h with ⟨d, hc⟩ | ⟨pd, hne, _⟩
    · exact (ApiMain.cryptoBranchA_fields env (pyStrip q) d resp hc).2.2.2.2.1
    · exact absurd hcr hne
  · intro env a amt resp r h hr
    rcases MainPy.analyze_ok_cases env a amt resp h with ⟨x, hf⟩ | ⟨x, y, hc⟩ | ⟨x, hs⟩
    · rcases MainPy.forexBranch_fields env x amt resp hf with ⟨_, _, _, hret, hest⟩
      rw [hret] at hr
      have hr2 : r = mkRat 2 100 := (Option.some_inj.mp hr).symm
      rw [hest, qmul_eq, qadd_eq, hr2]
      exact ⟨rfl, pyRound2_tol _⟩
    · rcases MainPy.cryptoBranch_fields env x y amt resp hc with ⟨_, _, _, hret, hest⟩
      rw [hret] at hr
      have hr2 : r = mkRat 25 100 := (Option.some_inj.mp hr).symm
      rw [hest, qmul_eq, qadd_eq, hr2]
      exact ⟨rfl, pyRound2_tol _⟩
    · rcases MainPy.stockBranch_fields env x amt resp hs with ⟨_, _, hest, _⟩
      rw [hest, hr, qmul_eq, qadd_eq]
      exact ⟨rfl, pyRound2_tol _⟩
  · intro env a amt resp h
    have hf := ApiIndex.analyze_ok_fields env a amt resp h
    rw [hf.2.2.2, qmul_eq, qadd_eq, qdiv_eq]
    exact ⟨rfl, pyRound2_tol _⟩

/-- Witness for C1 amended: concrete successful runs of all four relations
(AAPL via yfinance in `src/api/main.py`, bitcoin via CoinGecko there, AAPL
in `src/main.py` with the 0.05 fallback return, BTC in
`src/api/index.py`). -/
theorem C1_amended_witness :
    ((1007 : ℚ) = pyRound (1000 * (1 + aaplResp.expected_return)) 2 ∧
      |(1007 : ℚ) - 1000 * (1 + aaplResp.expected_return)| ≤ 1/200) ∧
    btcAResp.estimated_value = none ∧
    (stockMResp.estimated_value = pyRound (1000 * (1 + mkRat 5 100)) 2 ∧
      |stockMResp.estimated_value - 1000 * (1 + mkRat 5 100)| ≤ 1/200) ∧
    (btcIResp.estimated_value =
        pyRound (500 * (1 + parseNat (stripChar '%' btcIResp.expected_return) / 100)) 2 ∧
      |btcIResp.estimated_value -
        500 * (1 + parseNat (stripChar '%' btcIResp.expected_return) / 100)| ≤ 1/200) :=
  ⟨C1_amended.1 aEnvStock (pys "AAPL") 1000 aaplResp 1007 (by decide) (by decide),
   C1_amended.2.1 aEnvCrypto (pys "bitcoin") 500 btcAResp (by decide) (by decide),
   C1_amended.2.2.1 mEnvStock (pys "AAPL") 1000 stockMResp (mkRat 5 100) (by decide) (by decide),
   C1_amended.2.2.2 iEnvCrypto (pys "BTC") 500 btcIResp (by decide)⟩

/-- C2 counterexample: `src/api/main.py` never validates the amount: with a
nonempty query and amount 0 (≤ 0) the handler completes with a 200 response
and performs outbound network calls. -/
theorem C2_counterexample :
    (0 : ℚ) ≤ 0 ∧
    (ApiMain.analyze aEnvStock (pys "AAPL") 0).1 = .ok aapl0Resp ∧
    (ApiMain.analyze aEnvStock (pys "AAPL") 0).2 ≠ [] :=
  ⟨le_refl 0, by decide, by decide⟩

/-- C2 amended: an empty (post-strip) query or a non-positive amount is
rejected with a 400 before any outbound call in `src/main.py` and
`src/api/index.py`; `src/api/main.py` rejects only the empty query this way
and never checks the amount. -/
theorem C2_amended :
    (∀ (env : MainPy.MEnv) (a : PyStr) (amt : ℚ), pyStrip a = [] ∨ amt ≤ 0 →
      MainPy.analyze env a amt =
        (.error ⟨400, "Provide valid asset and positive amount"⟩, [])) ∧
    (∀ (env : ApiIndex.IEnv) (a : PyStr) (amt : ℚ), pyStrip a = [] ∨ amt ≤ 0 →
      ApiIndex.analyze env a amt = (.error ⟨400, "Provide valid asset and amount"⟩, [])) ∧
    (∀ (env : ApiMain.AEnv) (q : PyStr) (amt : ℚ), pyStrip q = [] →
      ApiMain.analyze env q amt =
        (.error ⟨400, "Please provide a company name, ticker, or crypto"⟩, [])) := by
  refine ⟨?_, ?_, ?_⟩
  · intro env a amt h
    simp only [MainPy.analyze]
    rw [if_pos h]
  · intro env a amt h
    simp only [ApiIndex.analyze]
    rw [if_pos h]
  · intro env q amt h
    simp only [ApiMain.analyze]
    rw [if_pos h]

/-- Witness for C2 amended: a whitespace-only asset in `src/main.py`, a zero
amount in `src/api/index.py`, and an empty query in `src/api/main.py`. -/
theorem C2_amended_witness :
    MainPy.analyze mEnvStock (pys " ") 5 =
      (.error ⟨400, "Provide valid asset and positive amount"⟩, []) ∧
    ApiIndex.analyze iEnvStock (pys "AAPL") 0 =
      (.error ⟨400, "Provide valid asset and amount"⟩, []) ∧
    ApiMain.analyze aEnvStock (pys "") 7 =
      (.error ⟨400, "Please provide a company name, ticker, or crypto"⟩, []) :=
  ⟨C2_amended.1 mEnvStock (pys " ") 5 (Or.inl (by decide)),
   C2_amended.2.1 iEnvStock (pys "AAPL") 0 (Or.inr (le_refl 0)),
   C2_amended.2.2 aEnvStock (pys "") 7 (by decide)⟩

/-- C3 counterexample: the `src/api/main.py` volatility
`round(abs(high - low) / current, 3)` is negative when the provider hands
back a negative current close (current -1, high 1, low 0): the analysis
completes successfully with volatility -1 < 0. -/
theorem C3_counterexample :
    Except.map ApiMain.AResp.volatility (ApiMain.analyze aEnvNeg (pys "XYZ") 100).1 =
      .ok (-1) ∧ (-1 : ℚ) < 0 :=
  ⟨by decide, by norm_num⟩

/-- C3 amended: the `src/api/main.py` volatility is nonnegative whenever the
fetched current price is positive (with a negative current price it can be
negative, see the counterexample); the `src/main.py` volatility figures are
nonnegative outright, assuming only that the float square root of a
nonnegative number is nonnegative; and both risk classifiers are monotone in
volatility for the order Low < Medium < High. -/
theorem C3_amended :
    (∀ (amt : ℚ) (pd : ApiMain.PriceData), 0 < pd.current →
        0 ≤ (ApiMain.stockMetrics amt pd).volatility) ∧
    (∀ v w : ℚ, v ≤ w →
        riskRank (ApiMain.classify_risk v).1 ≤ riskRank (ApiMain.classify_risk w).1) ∧
    (∀ v w : ℚ, v ≤ w →
        riskRank (MainPy.classify_risk_by_vol (some v)) ≤
          riskRank (MainPy.classify_risk_by_vol (some w))) ∧
    (∀ (env : MainPy.MEnv), (∀ x, 0 ≤ x → 0 ≤ env.sqrtf x) →
      ∀ (a : PyStr) (amt : ℚ) (resp : MainPy.MResp) (v : ℚ),
        (MainPy.analyze env a amt).1 = .ok resp →
        resp.volatility = some v ∨ resp.volatility_annual = some v → 0 ≤ v) := by
  refine ⟨?_, ?_, ?_, ?_⟩
  · intro amt pd hc
    exact ApiMain.stockMetrics_vol_nonneg amt pd hc
  · intro v w hvw
    unfold ApiMain.classify_risk
    split_ifs <;> first | decide | linarith
  · intro v w hvw
    simp only [MainPy.classify_risk_by_vol]
    split_ifs <;> first | decide | linarith
  · intro env hsq a amt resp v h hv
    rcases MainPy.analyze_ok_cases env a amt resp h with ⟨x, hf⟩ | ⟨x, y, hc⟩ | ⟨x, hs⟩
    · rcases MainPy.forexBranch_fields env x amt resp hf with ⟨_, hvol, hva, _, _⟩
      rcases hv with hv | hv
      · rw [hvol] at hv
        rw [← Option.some_inj.mp hv]
        norm_num [Rat.mkRat_eq_div]
      · rw [hva] at hv
        exact absurd hv (by simp)
    · rcases MainPy.cryptoBranch_fields env x y amt resp hc with ⟨_, hvol, hva, _, _⟩
      rcases hv with hv | hv
      · rw [hvol] at hv
        rw [← Option.some_inj.mp hv]
        norm_num [Rat.mkRat_eq_div]
      · rw [hva] at hv
        exact absurd hv (by simp)
    · rcases MainPy.stockBranch_fields env x amt resp hs with ⟨_, hvol, _, hdisj⟩
      rcases hv with hv | hv
      · rw [hvol] at hv
        exact absurd hv (by simp)
      · rcases hdisj with ⟨hva, _⟩ | ⟨prices, hva, _⟩
        · rw [hva] at hv
          rw [← Option.some_inj.mp hv]
          norm_num [Rat.mkRat_eq_div]
        · rw [hva] at hv
          exact MainPy.compute_vol_nonneg env hsq prices v hv

/-- Witness for C3 amended: the nonnegativity at the AAPL snapshot, both
monotonicity instances at 0.01 ≤ 0.03 and 0.1 ≤ 0.3, and the `src/main.py`
fallback volatility 0.25 of a concrete successful stock analysis. -/
theorem C3_amended_witness :
    0 ≤ (ApiMain.stockMetrics 1000 ⟨150, 149, 152, 148⟩).volatility ∧
    riskRank (ApiMain.classify_risk (mkRat 1 100)).1 ≤
      riskRank (ApiMain.classify_risk (mkRat 3 100)).1 ∧
    riskRank (MainPy.classify_risk_by_vol (some (mkRat 1 10))) ≤
      riskRank (MainPy.classify_risk_by_vol (some (mkRat 3 10))) ∧
    (0 : ℚ) ≤ mkRat 25 100 :=
  ⟨C3_amended.1 1000 ⟨150, 149, 152, 148⟩ (by norm_num),
   C3_amended.2.1 (mkRat 1 100) (mkRat 3 100) (by norm_num [Rat.mkRat_eq_div]),
   C3_amended.2.2.1 (mkRat 1 10) (mkRat 3 10) (by norm_num [Rat.mkRat_eq_div]),
   C3_amended.2.2.2 mEnvStock (fun x hx => hx) (pys "AAPL") 1000 stockMResp (mkRat 25 100)
     (by decide) (Or.inr (by decide))⟩

/-- C8: on every successful crypto or forex analysis the volatility and
return figures are fixed per-class constants, independent of the fetched
price: `src/main.py` forex 0.12/0.02 and crypto 0.9/0.25; `src/api/main.py`
crypto 0.07 volatility, 0.0 expected return, risk High; `src/api/index.py`
crypto return "8%" risk High and forex return "2%" risk Medium. -/
theorem C8_fixed_constants :
    (∀ (env : MainPy.MEnv) (a : PyStr) (amt : ℚ) (resp : MainPy.MResp),
        (MainPy.analyze env a amt).1 = .ok resp →
        (resp.rtype = "forex" →
          resp.volatility = some (12/100) ∧ resp.annual_return = some (2/100)) ∧
        (resp.rtype = "crypto" →
          resp.volatility = some (9/10) ∧ resp.annual_return = some (25/100))) ∧
    (∀ (env : ApiMain.AEnv) (q : PyStr) (amt : ℚ) (resp : ApiMain.AResp),
        (ApiMain.analyze env q amt).1 = .ok resp → resp.asset_type = "crypto" →
        resp.volatility = 7/100 ∧ resp.expected_return = 0 ∧
        resp.risk_category = "High") ∧
    (∀ (env : ApiIndex.IEnv) (a : PyStr) (amt : ℚ) (resp : ApiIndex.IResp),
        (ApiIndex.analyze env a amt).1 = .ok resp →
        (resp.rtype = "crypto" → resp.expected_return = pys "8%" ∧ resp.risk = "High") ∧
        (resp.rtype = "forex" → resp.expected_return = pys "2%" ∧ resp.risk = "Medium")) := by
  have m12 : (mkRat 12 100 : ℚ) = 12/100 := by rw [Rat.mkRat_eq_div]; norm_num
  have m2 : (mkRat 2 100 : ℚ) = 2/100 := by rw [Rat.mkRat_eq_div]; norm_num
  have m9 : (mkRat 9 10 : ℚ) = 9/10 := by rw [Rat.mkRat_eq_div]; norm_num
  have m25 : (mkRat 25 100 : ℚ) = 25/100 := by rw [Rat.mkRat_eq_div]; norm_num
  have m7 : (mkRat 7 100 : ℚ) = 7/100 := by rw [Rat.mkRat_eq_div]; norm_num
  refine ⟨?_, ?_, ?_⟩
  · intro env a amt resp h
    rcases MainPy.analyze_ok_cases env a amt resp h with ⟨x, hf⟩ | ⟨x, y, hc⟩ | ⟨x, hs⟩
    · rcases MainPy.forexBranch_fields env x amt resp hf with ⟨ht, hvol, _, hret, _⟩
      refine ⟨fun _ => ⟨?_, ?_⟩, fun hcr => ?_⟩
      · rw [hvol, m12]
      · rw [hret, m2]
      · rw [ht] at hcr
        exact absurd hcr (by decide)
    · rcases MainPy.cryptoBranch_fields env x y amt resp hc with ⟨ht, hvol, _, hret, _⟩
      refine ⟨fun hfx => ?_, fun _ => ⟨?_, ?_⟩⟩
      · rw [ht] at hfx
        exact absurd hfx (by decide)
      · rw [hvol, m9]
      · rw [hret, m25]
    · rcases MainPy.stockBranch_fields env x amt resp hs with ⟨ht, _, _, _⟩
      refine ⟨fun hfx => ?_, fun hcr => ?_⟩
      · rw [ht] at hfx
        exact absurd hfx (by decide)
      · rw [ht] at hcr
        exact absurd hcr (by decide)
  · intro env q amt resp h hcr
    rcases ApiMain.analyzeA_ok_cases env q amt resp h with ⟨d, hc⟩ | ⟨pd, hne, _⟩
    · rcases ApiMain.cryptoBranchA_fields env (pyStrip q) d resp hc with ⟨_, hvol, her, hrk, _, _⟩
      exact ⟨m7 ▸ hvol, her, hrk⟩
    · exact absurd hcr hne
  · intro env a amt resp h
    have hf := ApiIndex.analyze_ok_fields env a amt resp h
    refine ⟨fun hcr => ?_, fun hfx => ?_⟩
    · rw [hf.1, hf.2.1, hcr]
      exact ⟨rfl, rfl⟩
    · rw [hf.1, hf.2.1, hfx]
      exact ⟨rfl, rfl⟩

/-- Witness for C8: concrete successful forex and crypto runs across the
three services. -/
theorem C8_fixed_constants_witness :
    ((fxMResp.rtype = "forex" →
        fxMResp.volatility = some (12/100) ∧ fxMResp.annual_return = some (2/100)) ∧
      (fxMResp.rtype = "crypto" →
        fxMResp.volatility = some (9/10) ∧ fxMResp.annual_return = some (25/100))) ∧
    (btcAResp.volatility = 7/100 ∧ btcAResp.expected_return = 0 ∧
      btcAResp.risk_category = "High") ∧
    ((btcIResp.rtype = "crypto" →
        btcIResp.expected_return = pys "8%" ∧ btcIResp.risk = "High") ∧
      (btcIResp.rtype = "forex" →
        btcIResp.expected_return = pys "2%" ∧ btcIResp.risk = "Medium")) :=
  ⟨C8_fixed_constants.1 mEnvFx (pys "USD/INR") 100 fxMResp (by decide),
   C8_fixed_constants.2.1 aEnvCrypto (pys "bitcoin") 500 btcAResp (by decide) (by decide),
   C8_fixed_constants.2.2 iEnvCrypto (pys "BTC") 500 btcIResp (by decide)⟩

theorem countFinnhub_append (a b : List Call) :
    countFinnhub (a ++ b) = countFinnhub a + countFinnhub b := by
  simp [countFinnhub, List.filter_append]

theorem ApiMain.detect_no_finnhub (env : ApiMain.AEnv) (q : PyStr) :
    countFinnhub (ApiMain.detect_asset_type_and_symbol env q).2 = 0 := by
  rcases h : ApiMain.detect_asset_type_and_symbol env q with ⟨o, tr⟩
  simp only [ApiMain.detect_asset_type_and_symbol] at h
  repeat' split at h
  all_goals simp at h
  all_goals obtain ⟨h1, h2⟩ := h
  all_goals subst h2
  all_goals simp [countFinnhub, Call.isFinnhub]

theorem ApiMain.stockFetch_all_fail (env : ApiMain.AEnv) (sym : PyStr) (exch : Option PyStr)
    (hkey : env.finnhubKey ≠ []) (hyf : ∀ s, env.yfin s = none)
    (hfh : ∀ s, env.finnhub s = none) :
    (ApiMain.stockFetch env sym exch).1 = none ∧
    countFinnhub (ApiMain.stockFetch env sym exch).2 = 1 := by
  simp only [ApiMain.stockFetch, ApiMain.fetch_price_with_yfinance,
    ApiMain.fetch_price_with_finnhub, hyf, hfh, if_neg hkey]
  split_ifs with hns <;> constructor <;> simp [hyf, countFinnhub, Call.isFinnhub]

/-- C7 counterexample: with every stock provider failing (and a Finnhub key
configured), the Finnhub fallback is attempted exactly once but the error
surfaced to the caller is a 502 "Unable to fetch market data", not a
not-found (404) response. -/
theorem C7_counterexample :
    (ApiMain.analyze aEnvFail (pys "XYZ") 100).1 =
      .error ⟨502, "Unable to fetch market data for symbol XYZ"⟩ ∧
    countFinnhub (ApiMain.analyze aEnvFail (pys "XYZ") 100).2 = 1 ∧
    (502 : ℕ) ≠ 404 :=
  ⟨by decide, by decide, by decide⟩

/-- C7 amended: in `src/api/main.py`, when a Finnhub key is configured and
every stock-price provider fails, a non-crypto detected asset leads to
exactly one Finnhub fallback attempt before the handler surfaces a 502
upstream-data error (the source never returns a 404 here). -/
theorem C7_amended (env : ApiMain.AEnv) (q : PyStr) (amt : ℚ) (d : ApiMain.Detected)
    (hkey : env.finnhubKey ≠ [])
    (hyf : ∀ s, env.yfin s = none) (hfh : ∀ s, env.finnhub s = none)
    (hdet : (ApiMain.detect_asset_type_and_symbol env (pyStrip q)).1 = some d)
    (hcr : d.dtype ≠ "crypto") :
    (ApiMain.analyze env q amt).1 =
      .error ⟨502, "Unable to fetch market data for symbol " ++ String.mk d.symbol⟩ ∧
    countFinnhub (ApiMain.analyze env q amt).2 = 1 := by
  have hne : ¬ (pyStrip q = []) := by
    intro hq
    rw [hq] at hdet
    have hse : pyStrip ([] : PyStr) = [] := rfl
    simp [ApiMain.detect_asset_type_and_symbol, hse] at hdet
  rcases hpair : ApiMain.detect_asset_type_and_symbol env (pyStrip q) with ⟨o, tr⟩
  rw [hpair] at hdet
  simp only at hdet
  subst hdet
  have hdtr : countFinnhub tr = 0 := by
    have h0 := ApiMain.detect_no_finnhub env (pyStrip q)
    rw [hpair] at h0
    simpa using h0
  rcases hsf : ApiMain.stockFetch env d.symbol d.exchange with ⟨o2, tf⟩
  have hall := ApiMain.stockFetch_all_fail env d.symbol d.exchange hkey hyf hfh
  rw [hsf] at hall
  simp only at hall
  obtain ⟨ho2, htf⟩ := hall
  subst ho2
  have hrun : ApiMain.analyze env q amt =
      (.error ⟨502, "Unable to fetch market data for symbol " ++ String.mk d.symbol⟩,
        tr ++ tf) := by
    simp only [ApiMain.analyze]
    rw [if_neg hne, hpair]
    simp only [if_neg hcr, hsf]
  rw [hrun]
  refine ⟨rfl, ?_⟩
  rw [countFinnhub_append, hdtr, htf]

/-- Witness for C7 amended, at the all-providers-fail environment with the
bare ticker "XYZ". -/
theorem C7_amended_witness :
    (ApiMain.analyze aEnvFail (pys "XYZ") 100).1 =
      .error ⟨502, "Unable to fetch market data for symbol " ++ String.mk (pys "XYZ")⟩ ∧
    countFinnhub (ApiMain.analyze aEnvFail (pys "XYZ") 100).2 = 1 :=
  C7_amended aEnvFail (pys "XYZ") 100
    ⟨"stock", pys "XYZ", some (pys "XYZ"), none, "user"⟩
    (by decide) (fun _ => rfl) (fun _ => rfl) (by decide) (by decide)

/-- A valid 3-letter currency code: three uppercase alphabetic characters
(stated through the string operations the handlers apply to it). -/
def validCode (s : PyStr) : Prop :=
  s.length = 3 ∧ pyIsAlpha s = true ∧ pyUpper s = s ∧ pyContains s '/' = false ∧
  (∀ c ∈ s, c.isWhitespace = false) ∧ (∀ c ∈ s, (c == ' ') = false)

instance (s : PyStr) : Decidable (validCode s) := by
  unfold validCode
  infer_instance

/-- C6: for every input of the form "XXX/YYY" with valid 3-letter codes, the
`src/main.py` and `src/api/index.py` handlers classify the query as forex
with base XXX and quote YYY: the response type is "forex", the reported
asset is the pair XXX/YYY, the currency is the quote YYY, and the price is
the rate the exchange-rate provider served for base XXX against quote
YYY. -/
theorem C6_forex_classification (X Y : PyStr) (hX : validCode X) (hY : validCode Y) :
    (∀ (env : MainPy.MEnv) (amt r : ℚ), 0 < amt → env.exr X Y = some r →
      Except.map (fun m : MainPy.MResp => (m.rtype, m.asset, m.currency, m.current_price))
          (MainPy.analyze env (X ++ '/' :: Y) amt).1 =
        .ok ("forex", X ++ '/' :: Y, Y, r)) ∧
    (∀ (env : ApiIndex.IEnv) (amt r : ℚ), 0 < amt → env.exr X Y = .got r →
      Except.map (fun m : ApiIndex.IResp => (m.rtype, m.asset, m.currency, m.current_price))
          (ApiIndex.analyze env (X ++ '/' :: Y) amt).1 =
        .ok ("forex", X ++ '/' :: Y, Y, some r)) := by
  have hnil : X ++ '/' :: Y ≠ [] := by
    intro h
    simp at h
  have hws : ∀ c ∈ X ++ '/' :: Y, c.isWhitespace = false := by
    intro c hc
    rcases List.mem_append.mp hc with hc | hc
    · exact hX.2.2.2.2.1 c hc
    · rcases List.mem_cons.mp hc with rfl | hc
      · decide
      · exact hY.2.2.2.2.1 c hc
  have hsp : ∀ c ∈ X ++ '/' :: Y, (c == ' ') = false := by
    intro c hc
    rcases List.mem_append.mp hc with hc | hc
    · exact hX.2.2.2.2.2 c hc
    · rcases List.mem_cons.mp hc with rfl | hc
      · decide
      · exact hY.2.2.2.2.2 c hc
  have hstrip : pyStrip (X ++ '/' :: Y) = X ++ '/' :: Y := pyStrip_eq_self hws
  have hcontains : pyContains (X ++ '/' :: Y) '/' = true :=
    pyContains_true (List.mem_append_right X (List.mem_cons_self '/' Y))
  have hupper : pyUpper (X ++ '/' :: Y) = X ++ '/' :: Y := by
    have hm : pyUpper (X ++ '/' :: Y) = pyUpper X ++ Char.toUpper '/' :: pyUpper Y := by
      simp [pyUpper]
    rw [hm, hX.2.2.1, hY.2.2.1, (by decide : Char.toUpper '/' = '/')]
  have hnospace : removeSpaces (X ++ '/' :: Y) = X ++ '/' :: Y := removeSpaces_eq_self hsp
  have hsplit : splitOnChar '/' (X ++ '/' :: Y) = [X, Y] :=
    splitOnChar_sandwich X Y (pyContains_not_mem hX.2.2.2.1) (pyContains_not_mem hY.2.2.2.1)
  constructor
  · intro env amt r hamt hex
    have hnorm : MainPy.fxNormalize (X ++ '/' :: Y) = X ++ '/' :: Y := by
      simp only [MainPy.fxNormalize]
      rw [hupper, hnospace, hcontains]
      simp
    have hfr : MainPy.forex_rate env (X ++ '/' :: Y) = (.ok ⟨X, Y, r⟩, [Call.exr X Y]) := by
      simp only [MainPy.forex_rate]
      rw [hnorm]
      simp [hcontains, hsplit, hex]
    simp only [MainPy.analyze]
    rw [hstrip, if_neg (not_or.mpr ⟨hnil, not_le.mpr hamt⟩)]
    simp only [hcontains, Bool.true_or, if_true]
    simp only [MainPy.forexBranch, hfr]
    simp [Except.map]
  · intro env amt r hamt hex
    have hgfr : ApiIndex.get_forex_rate env (X ++ '/' :: Y) = (.ok (r, Y), [Call.exr X Y]) := by
      simp only [ApiIndex.get_forex_rate, ApiIndex.pairParse]
      rw [hupper, hsplit]
      simp [hex]
    simp only [ApiIndex.analyze]
    rw [hstrip, if_neg (not_or.mpr ⟨hnil, not_le.mpr hamt⟩), if_pos hcontains]
    simp only [hgfr]
    simp [Except.map, hupper]

/-- Witness for C6 at "USD/INR" with rate 83 under the concrete forex
environments of both services. -/
theorem C6_forex_classification_witness :
    (validCode (pys "USD") ∧ validCode (pys "INR")) ∧
    Except.map (fun m : MainPy.MResp => (m.rtype, m.asset, m.currency, m.current_price))
        (MainPy.analyze mEnvFx (pys "USD" ++ '/' :: pys "INR") 100).1 =
      .ok ("forex", pys "USD" ++ '/' :: pys "INR", pys "INR", 83) ∧
    Except.map (fun m : ApiIndex.IResp => (m.rtype, m.asset, m.currency, m.current_price))
        (ApiIndex.analyze iEnvFx (pys "USD" ++ '/' :: pys "INR") 100).1 =
      .ok ("forex", pys "USD" ++ '/' :: pys "INR", pys "INR", some 83) :=
  ⟨⟨by decide, by decide⟩,
   (C6_forex_classification (pys "USD") (pys "INR") (by decide) (by decide)).1
     mEnvFx 100 83 (by norm_num) (by decide),
   (C6_forex_classification (pys "USD") (pys "INR") (by decide) (by decide)).2
     iEnvFx 100 83 (by norm_num) (by decide)⟩
